import Mathlib

/-!
# OSC route observer (libs/surfaces/osc/osc_route_observer.cc)

A shallow embedding of `OSCRouteObserver`: the per-slot feedback adapter that
watches one strip of the mixer and sends OSC messages for it.

Modelling conventions

* `float`/`double` quantities (gain, trim, meter, payloads) are exact rationals;
  the cache fields hold the value that was stored in them.
* A `boost::shared_ptr<Stripable>` is an `Option Nat`: `none` is the empty
  pointer, `some p` the strip with identity `p`.  The strip a pointer refers to
  is read from the engine at the time of the call (`Engine.strips`), since the
  mixer changes it between calls.
* `_osc.*_message_with_id (path, ssid, value, in_line, addr)` appends a `Msg` to
  the list of sent messages; `addr` is fixed for the life of an observer and is
  left out.
* `strip_connections` is the list of the signal connections made, each recorded
  with the strip it was made on and the handler it was bound to.
* Dereferencing an empty pointer ends the run: `Outcome.fault`, carrying the
  messages that had been sent before.
* `accurate_coefficient_to_dB` (ardour/dB.h) and the text rendering of
  `string_compose` with `std::fixed, std::setprecision(2)` are not part of this
  file's source; they are fields of `Engine`.
-/

namespace ArdourSurface

/-- Automation modes of `ARDOUR::AutoState` that `gain_automation` switches on. -/
inductive AutoState
  | Off | Write | Touch | Play | Latch
  deriving DecidableEq, Repr

/-- Typed payload of an outgoing message. -/
inductive Payload
  | float (v : ℚ)
  | int (v : Int)
  | text (v : String)
  deriving DecidableEq

/-- One call of `_osc.float_message_with_id`, `int_message_with_id` or
`text_message_with_id`. -/
structure Msg where
  path : String
  ssid : Nat
  payload : Payload
  in_line : Bool
  deriving DecidableEq

/-- A `PBD::Controllable`: its current value and its internal-to-interface map. -/
structure Controllable where
  get_value : ℚ
  internal_to_interface : ℚ → ℚ

/-- The gain control: a controllable whose automation list has a state. -/
structure GainControl extends Controllable where
  automation_state : AutoState

/-- What the observer reads from an `ARDOUR::Stripable`. Controls the source
tests for emptiness before use are optional; `monitoring_control` is present
exactly when the strip is a `Track`. -/
structure Stripable where
  name : String
  is_hidden : Bool
  is_selected : Bool
  mute_control : Controllable
  solo_control : Controllable
  solo_isolate_control : Option Controllable
  solo_safe_control : Option Controllable
  monitoring_control : Option Controllable
  rec_enable_control : Option Controllable
  rec_safe_control : Option Controllable
  gain_control : GainControl
  trim_control : Option Controllable
  pan_azimuth_control : Option Controllable
  peak_meter : Option ℚ

/-- The collaborators outside this file: the strips by identity, the decibel
conversion and the fixed two-digit rendering of a decibel value. -/
structure Engine where
  strips : Nat → Stripable
  accurate_coefficient_to_dB : ℚ → ℚ
  compose_fixed2 : ℚ → String

/-- Members of a `PBD::PropertyChange` the observer looks at. -/
inductive Property
  | name | selected | hidden | other
  deriving DecidableEq

/-- The member function a signal connection is bound to. -/
inductive Handler
  | no_strip
  | name_changed
  | pi_changed
  | send_change_message (path : String)
  | send_monitor_status
  | send_select_status
  | gain_automation
  | send_gain_message
  | send_trim_message
  deriving DecidableEq

/-- One entry of `strip_connections`. -/
structure Connection where
  strip : Nat
  handler : Handler
  deriving DecidableEq

/-- The data members of `OSCRouteObserver`; `feedback` is the bitset as a
number, bit `i` being `feedback[i]`. -/
structure OSCRouteObserver where
  ssid : Nat
  gainmode : Nat
  feedback : Nat
  in_line : Bool
  _strip : Option Nat
  strip_connections : List Connection
  _last_gain : ℚ
  _last_trim : ℚ
  _last_meter : ℚ
  gain_timeout : Nat
  _init : Bool
  _expand : Nat
  as : AutoState
  _tick_busy : Bool
  deriving DecidableEq

/-- Result of running a member function. -/
inductive Outcome
  | ok (o : OSCRouteObserver) (sent : List Msg)
  | fault (sent : List Msg)
  deriving DecidableEq

/-- Messages sent during a run, whether or not it completed. -/
def Outcome.sent : Outcome → List Msg
  | .ok _ sent => sent
  | .fault sent => sent

/-- The observer after a completed run. -/
def Outcome.state : Outcome → Option OSCRouteObserver
  | .ok o _ => some o
  | .fault _ => none

/-- A statement of a member function body. -/
abbrev Step := OSCRouteObserver → Outcome

/-- The same outcome with `pre` sent before it. -/
def Outcome.prepend (pre : List Msg) : Outcome → Outcome
  | .ok o sent => .ok o (pre ++ sent)
  | .fault sent => .fault (pre ++ sent)

/-- Run `f` after `r`, keeping what `r` sent. -/
def Outcome.andThen : Outcome → Step → Outcome
  | .ok o sent, f => (f o).prepend sent
  | .fault sent, _ => .fault sent

/-- The empty statement. -/
def skip : Step := fun o => .ok o []

/-- Statements in sequence. -/
def seq : List Step → Step
  | [] => skip
  | s :: rest => fun o => (s o).andThen (seq rest)

namespace OSCRouteObserver

/-- Reading of `feedback[i]`. -/
def fb (o : OSCRouteObserver) (i : Nat) : Bool := o.feedback.testBit i

/-- Call of `_osc.float_message_with_id (path, ssid, v, in_line, addr)`. -/
@[simp]
def float_message (path : String) (v : ℚ) : Step :=
  fun o => .ok o [⟨path, o.ssid, .float v, o.in_line⟩]

/-- Call of `_osc.int_message_with_id (path, ssid, v, in_line, addr)`. -/
@[simp]
def int_message (path : String) (v : Int) : Step :=
  fun o => .ok o [⟨path, o.ssid, .int v, o.in_line⟩]

/-- Call of `_osc.text_message_with_id (path, ssid, v, in_line, addr)`. -/
@[simp]
def text_message (path : String) (v : String) : Step :=
  fun o => .ok o [⟨path, o.ssid, .text v, o.in_line⟩]

/-- The float message the observer `o` sends on `path`. -/
@[simp]
def float_msg (o : OSCRouteObserver) (path : String) (v : ℚ) : Msg :=
  ⟨path, o.ssid, .float v, o.in_line⟩

/-- The text message the observer `o` sends on `path`. -/
@[simp]
def text_msg (o : OSCRouteObserver) (path : String) (v : String) : Msg :=
  ⟨path, o.ssid, .text v, o.in_line⟩

/-- Call of `sig.connect (strip_connections, ..., handler, ...)` on strip `s`. -/
@[simp]
def connect (s : Nat) (h : Handler) : Step :=
  fun o => .ok { o with strip_connections := o.strip_connections ++ [⟨s, h⟩] } []

/-- A `bool` passed where a number is expected. -/
def ofBool (b : Bool) : ℚ := if b then 1 else 0

/-- Lines 86-99. -/
def no_strip : Step :=
  fun o => .ok { o with _init := true, strip_connections := [] } []

/-- Lines 466-474. -/
def send_select_status (e : Engine) (what : List Property) : Step :=
  fun o =>
    if what = [Property.selected] then
      match o._strip with
      | some s => float_message "/strip/select" (ofBool (e.strips s).is_selected) o
      | none => .ok o []
    else .ok o []

/-- Lines 338-348. -/
def name_changed (e : Engine) (what_changed : List Property) : Step :=
  fun o =>
    if Property.name ∉ what_changed then .ok o []
    else
      match o._strip with
      | some s => text_message "/strip/name" (e.strips s).name o
      | none => .ok o []

/-- Lines 350-354. -/
def pi_changed (e : Engine) : Step :=
  fun o =>
    match o._strip with
    | some s => int_message "/strip/hide" (if (e.strips s).is_hidden then 1 else 0) o
    | none => .fault []

/-- Lines 356-361; the run faults on an empty `controllable`. -/
def send_change_message (path : String) (controllable : Option Controllable) : Step :=
  fun o =>
    match controllable with
    | some c => float_message path (c.internal_to_interface c.get_value) o
    | none => .fault []

/-- C++ conversion of a number to `int`: the fraction is dropped. -/
def truncate (q : ℚ) : Int := Int.tdiv q.num q.den

/-- Lines 363-388. -/
def send_monitor_status (controllable : Option Controllable) : Step :=
  fun o =>
    match controllable with
    | none => .fault []
    | some c =>
      let val := c.get_value
      let di : Int × Int :=
        if truncate val = 1 then (0, 1)
        else if truncate val = 2 then (1, 0)
        else if truncate val = 3 then (1, 1)
        else (0, 0)
      seq [int_message "/strip/monitor_input" di.2, int_message "/strip/monitor_disk" di.1] o

/-- Lines 390-399. -/
def send_trim_message (e : Engine) : Step :=
  fun o =>
    match o._strip with
    | none => .fault []
    | some s =>
      match (e.strips s).trim_control with
      | none => .fault []
      | some c =>
        if o._last_trim ≠ c.get_value then
          float_message "/strip/trimdB" (e.accurate_coefficient_to_dB c.get_value)
            { o with _last_trim := c.get_value }
        else .ok o []

/-- Lines 401-425. -/
def send_gain_message (e : Engine) : Step :=
  fun o =>
    match o._strip with
    | none => .fault []
    | some s =>
      let controllable := (e.strips s).gain_control
      if o._last_gain ≠ controllable.get_value then
        seq [
          (if o.gainmode ≠ 0 then
            seq [
              fun o1 => float_message "/strip/fader"
                (controllable.internal_to_interface o1._last_gain) o1,
              (if o.gainmode = 1 then
                seq [
                  text_message "/strip/name"
                    (e.compose_fixed2 (e.accurate_coefficient_to_dB controllable.get_value)),
                  fun o1 => .ok { o1 with gain_timeout := 8 } []]
              else skip)]
          else skip),
          (if o.gainmode = 0 ∨ o.gainmode = 2 then
            (if controllable.get_value < 1 / 10 ^ 15 then
              float_message "/strip/gain" (-200)
            else
              fun o1 => float_message "/strip/gain"
                (e.accurate_coefficient_to_dB o1._last_gain) o1)
          else skip)]
          { o with _last_gain := controllable.get_value }
      else .ok o []

/-- The numeric code and the label of lines 438-461. -/
def automation_code : AutoState → ℚ × String
  | .Off => (0, "Manual")
  | .Play => (1, "Play")
  | .Write => (2, "Write")
  | .Touch => (3, "Touch")
  | .Latch => (4, "Latch")

/-- Lines 427-464. -/
def gain_automation (e : Engine) : Step :=
  fun o =>
    let path := if o.gainmode ≠ 0 then "/strip/fader" else "/strip/gain"
    seq [
      send_gain_message e,
      fun o1 =>
        match o1._strip with
        | none => .fault []
        | some s =>
          let as := (e.strips s).gain_control.automation_state
          seq [
            float_message (path ++ "/automation") (automation_code as).1,
            text_message (path ++ "/automation_name") (automation_code as).2]
            { o1 with as := as }] o

/-- Lines 236-277. -/
def clear_strip : Step :=
  fun o =>
    seq [
      float_message "/strip/expand" 0,
      (if o.fb 0 then
        seq [
          text_message "/strip/name" " ",
          float_message "/strip/mute" 0,
          float_message "/strip/solo" 0,
          float_message "/strip/recenable" 0,
          float_message "/strip/record_safe" 0,
          float_message "/strip/monitor_input" 0,
          float_message "/strip/monitor_disk" 0,
          float_message "/strip/gui_select" 0,
          float_message "/strip/select" 0]
      else skip),
      (if o.fb 1 then
        seq [
          (if o.gainmode ≠ 0 then float_message "/strip/fader" 0
           else float_message "/strip/gain" (-193)),
          float_message "/strip/trimdB" 0,
          float_message "/strip/pan_stereo_position" (1 / 2)]
      else skip),
      (if o.fb 9 then float_message "/strip/signal" 0 else skip),
      (if o.fb 7 then
        (if o.gainmode ≠ 0 then float_message "/strip/meter" 0
         else float_message "/strip/meter" (-193))
      else if o.fb 8 then float_message "/strip/meter" 0
      else skip)]
      { o with _init := true, strip_connections := [] }

/-- Line 303: `(uint32_t)(((now_meter + 54) / 3.75)-1)`. -/
def ledlvl (now_meter : ℚ) : Nat :=
  (truncate ((now_meter + 54) / (15 / 4) - 1) % 2 ^ 32).toNat

/-- Line 304: `uint16_t ledbits = ~(0xfff<<ledlvl)`, the shift on 32 bits with
the count taken modulo 32. -/
def ledbits (now_meter : ℚ) : Nat :=
  (2 ^ 32 - 1 - (0xfff <<< (ledlvl now_meter % 32)) % 2 ^ 32) % 2 ^ 16

/-- Lines 289-295 of `tick`: the meter sample of the strip, `-193` when the
strip has no peak meter, and `-193` in place of a sample below `-120`. -/
def now_meter (st : Stripable) : ℚ :=
  let sampled : ℚ :=
    match st.peak_meter with
    | some m => m
    | none => -193
  if sampled < -120 then -193 else sampled

/-- Lines 297-316 of `tick`: what is sent for a meter value that differs from
`_last_meter`. -/
def meter_changed (now_meter : ℚ) : Step :=
  fun o =>
    seq [
      (if o.fb 7 || o.fb 8 then
        (if o.gainmode ≠ 0 && o.fb 7 then
          float_message "/strip/meter" ((now_meter + 94) / 100)
        else if o.gainmode = 0 && o.fb 7 then
          float_message "/strip/meter" now_meter
        else if o.fb 8 then
          int_message "/strip/meter" (ledbits now_meter)
        else skip)
      else skip),
      (if o.fb 9 then
        float_message "/strip/signal" (if now_meter < -40 then 0 else 1)
      else skip)] o

/-- Lines 287-320 of `tick`: the meter sampling. -/
def tick_meter (e : Engine) : Step :=
  fun o =>
    if o.fb 7 || o.fb 8 || o.fb 9 then
      match o._strip with
      | none => .fault []
      | some s =>
        seq [
          (if o._last_meter ≠ now_meter (e.strips s) then
            meter_changed (now_meter (e.strips s))
          else skip),
          fun o1 => .ok { o1 with _last_meter := now_meter (e.strips s) } []] o
    else .ok o []

/-- Lines 321-334 of `tick`: the name countdown and the automation poll. -/
def tick_level (e : Engine) : Step :=
  fun o =>
    if o.fb 1 then
      seq [
        (fun o1 =>
          if o1.gain_timeout ≠ 0 then
            seq [
              (if o1.gain_timeout = 1 then
                fun o2 =>
                  match o2._strip with
                  | none => .fault []
                  | some s => text_message "/strip/name" (e.strips s).name o2
              else skip),
              fun o2 => .ok { o2 with gain_timeout := o2.gain_timeout - 1 } []] o1
          else .ok o1 []),
        (fun o1 =>
          if o1.as = AutoState.Play ∨ o1.as = AutoState.Touch then
            match o1._strip with
            | none => .fault []
            | some s =>
              if o1._last_gain ≠ (e.strips s).gain_control.get_value then
                send_gain_message e
                  { o1 with _last_gain := (e.strips s).gain_control.get_value }
              else .ok o1 []
          else .ok o1 [])] o
    else .ok o []

/-- Lines 280-336. -/
def tick (e : Engine) : Step :=
  fun o =>
    if o._init then .ok o []
    else
      seq [
        tick_meter e,
        tick_level e,
        fun o1 => .ok { o1 with _tick_busy := false } []]
        { o with _tick_busy := true }

/-- Lines 128-169 of `refresh_strip`: the button feedback of strip `s`. -/
def refresh_buttons (e : Engine) (s : Nat) : Step :=
  let st := e.strips s
  seq [
    connect s .name_changed,
    name_changed e [Property.name],
    connect s .pi_changed,
    int_message "/strip/hide" (if st.is_hidden then 1 else 0),
    connect s (.send_change_message "/strip/mute"),
    send_change_message "/strip/mute" (some st.mute_control),
    connect s (.send_change_message "/strip/solo"),
    send_change_message "/strip/solo" (some st.solo_control),
    (if st.solo_isolate_control.isSome then
      seq [
        connect s (.send_change_message "/strip/solo_iso"),
        send_change_message "/strip/solo_iso" st.solo_isolate_control]
    else skip),
    (if st.solo_safe_control.isSome then
      seq [
        connect s (.send_change_message "/strip/solo_safe"),
        send_change_message "/strip/solo_safe" st.solo_safe_control]
    else skip),
    (if st.monitoring_control.isSome then
      seq [
        connect s .send_monitor_status,
        send_monitor_status st.monitoring_control]
    else skip),
    (if st.rec_enable_control.isSome then
      seq [
        connect s (.send_change_message "/strip/recenable"),
        send_change_message "/strip/recenable" st.rec_enable_control]
    else skip),
    (if st.rec_enable_control.isSome then
      (match st.rec_safe_control with
       | none => fun _ => .fault []
       | some _ =>
         seq [
           connect s (.send_change_message "/strip/record_safe"),
           send_change_message "/strip/record_safe" st.rec_safe_control])
    else skip),
    connect s .send_select_status,
    send_select_status e [Property.selected]]

/-- Lines 171-188 of `refresh_strip`: the level controls of strip `s`. -/
def refresh_levels (e : Engine) (s : Nat) : Step :=
  let st := e.strips s
  seq [
    connect s .gain_automation,
    connect s .send_gain_message,
    gain_automation e,
    (if st.trim_control.isSome then
      seq [connect s .send_trim_message, send_trim_message e]
    else skip),
    (if st.pan_azimuth_control.isSome then
      seq [
        connect s (.send_change_message "/strip/pan_stereo_position"),
        send_change_message "/strip/pan_stereo_position" st.pan_azimuth_control]
    else skip)]

/-- Lines 101-192. The wait on `_tick_busy` changes no data. -/
def refresh_strip (e : Engine) (new_strip : Option Nat) (force : Bool) : Step :=
  fun o =>
    seq [
      send_select_status e [Property.selected],
      fun o1 =>
        if new_strip = o1._strip ∧ force = false then
          .ok { o1 with _init := false } []
        else
          match new_strip with
          | none => clear_strip { o1 with strip_connections := [], _strip := none }
          | some s =>
            seq [
              connect s .no_strip,
              fun o2 => .ok { o2 with as := AutoState.Off } [],
              (if o.fb 0 then refresh_buttons e s else skip),
              (if o.fb 1 then refresh_levels e s else skip),
              fun o2 => .ok { o2 with _init := false } [],
              tick e]
              { o1 with strip_connections := [], _strip := some s }]
      { o with _init := true, _last_gain := -1, _last_trim := -1 }

/-- Lines 194-205. -/
def set_expand (expand : Nat) : Step :=
  fun o =>
    if expand ≠ o._expand then
      (if expand = o.ssid then float_message "/strip/expand" 1
       else float_message "/strip/expand" 0) { o with _expand := expand }
    else .ok o []

/-- Lines 207-234. -/
def set_link_ready (e : Engine) (not_ready : Nat) : Step :=
  fun o =>
    if not_ready ≠ 0 then
      seq [
        clear_strip,
        (if o.ssid = 1 then text_message "/strip/name" "Device"
         else if o.ssid = 2 then text_message "/strip/name" (toString not_ready)
         else if o.ssid = 3 then text_message "/strip/name" "Missing"
         else if o.ssid = 4 then text_message "/strip/name" "from"
         else if o.ssid = 5 then text_message "/strip/name" "Linkset"
         else skip)] o
    else refresh_strip e o._strip true o

end OSCRouteObserver

/-- What the constructor reads from `OSC::OSCSurface` and from the link set of
the surface (`not_ready` is `0` when the surface has no link set). -/
structure OSCSurface where
  gainmode : Nat
  feedback : Nat
  bank : Nat
  strips : List (Option Nat)
  not_ready : Nat
  expand_enable : Bool
  expand : Nat

/-- Lines 43-50: the observer as the initialiser list leaves it. The members the
list leaves out (`_last_meter`, `gain_timeout`, `as`, `_tick_busy`) start with
the values of `junk`; `_strip` starts empty. Lines 53-55 set `gainmode`,
`feedback` and `in_line`. -/
def OSCRouteObserver.initial (ss : Nat) (sur : OSCSurface) (junk : OSCRouteObserver) :
    OSCRouteObserver where
  ssid := ss
  gainmode := sur.gainmode
  feedback := sur.feedback
  in_line := sur.feedback.testBit 2
  _strip := none
  strip_connections := []
  _last_gain := -1
  _last_trim := -1
  _last_meter := junk._last_meter
  gain_timeout := junk.gain_timeout
  _init := true
  _expand := 2048
  as := junk.as
  _tick_busy := junk._tick_busy

/-- Lines 43-76, with `sid = bank + ssid - 2` computed on 32 bits. -/
def OSCRouteObserver.construct (e : Engine) (ss : Nat) (sur : OSCSurface)
    (junk : OSCRouteObserver) : Outcome :=
  let sid : Nat := (sur.bank + ss + 2 ^ 32 - 2) % 2 ^ 32
  seq [
    (if sur.not_ready ≠ 0 then OSCRouteObserver.set_link_ready e sur.not_ready
     else if sid ≥ sur.strips.length then
       fun o => OSCRouteObserver.clear_strip { o with _strip := none }
     else
       fun o =>
         OSCRouteObserver.refresh_strip e (sur.strips.getD sid none) true
           { o with _strip := sur.strips.getD sid none }),
    (if sur.expand_enable then OSCRouteObserver.set_expand sur.expand
     else OSCRouteObserver.set_expand 0)]
    (OSCRouteObserver.initial ss sur junk)

/-! ## Sample data for the concrete evaluations -/

/-- A control with value `v` whose interface value is its internal value. -/
def sample_control (v : ℚ) : Controllable := ⟨v, fun x => x⟩

/-- An audio bus: no record, monitoring, isolate or safe controls; unity gain under
automation playback; a trim control; a peak meter reading `-10`. -/
def sample_bus : Stripable where
  name := "Bus"
  is_hidden := false
  is_selected := true
  mute_control := sample_control 0
  solo_control := sample_control 0
  solo_isolate_control := none
  solo_safe_control := none
  monitoring_control := none
  rec_enable_control := none
  rec_safe_control := none
  gain_control := { sample_control 1 with automation_state := AutoState.Play }
  trim_control := some (sample_control 2)
  pan_azimuth_control := none
  peak_meter := some (-10)

/-- A strip with a record-enable control and no record-safe control. -/
def sample_rec_only : Stripable :=
  { sample_bus with rec_enable_control := some (sample_control 0) }

/-- A strip with a record-safe control and no record-enable control. -/
def sample_safe_only : Stripable :=
  { sample_bus with rec_safe_control := some (sample_control 1) }

/-- An engine in which every strip identity refers to `st`; the decibel
conversion and its rendering are stand-ins. -/
def sample_engine (st : Stripable) : Engine where
  strips := fun _ => st
  accurate_coefficient_to_dB := fun x => x
  compose_fixed2 := fun _ => "dB"

/-- An observer of slot 1 bound to strip 0, past its initial sync, with the
given gain mode and feedback flags; the gain cache holds `0`, the countdown is
over and the cached automation state is `Play`. -/
def sample_observer (gainmode feedback : Nat) : OSCRouteObserver where
  ssid := 1
  gainmode := gainmode
  feedback := feedback
  in_line := false
  _strip := some 0
  strip_connections := [⟨0, Handler.no_strip⟩]
  _last_gain := 0
  _last_trim := -1
  _last_meter := -10
  gain_timeout := 0
  _init := false
  _expand := 0
  as := AutoState.Play
  _tick_busy := false

/-- The engine `e` with the peak meter of strip `s` reading `m`. -/
def Engine.with_meter (e : Engine) (s : Nat) (m : ℚ) : Engine :=
  { e with
    strips := fun p => if p = s then { e.strips p with peak_meter := some m } else e.strips p }

/-- An engine in which every strip identity refers to `st`, with decibel
conversion `db`; the rendering shows the sign of the value. -/
def probe_engine (st : Stripable) (db : ℚ → ℚ) : Engine where
  strips := fun _ => st
  accurate_coefficient_to_dB := db
  compose_fixed2 := fun q => if q < 0 then "-" else "+"

/-- A bus whose gain is zero. -/
def sample_silent : Stripable :=
  { sample_bus with gain_control := { sample_control 0 with automation_state := AutoState.Off } }

/-- A surface without strips and without link set: gain mode 0, meter feedback
(`feedback[7]`), bank 1, expand disabled. -/
def sample_surface : OSCSurface where
  gainmode := 0
  feedback := 128
  bank := 1
  strips := []
  not_ready := 0
  expand_enable := false
  expand := 0

/-- A surface with the one strip 0 and without link set: gain mode 0, level
feedback (`feedback[1]`), bank 1, expand disabled. -/
def sample_surface_one : OSCSurface where
  gainmode := 0
  feedback := 2
  bank := 1
  strips := [some 0]
  not_ready := 0
  expand_enable := false
  expand := 0

/-- The sample observer of gain mode 0 without feedback, after `set_expand 1` and
`no_strip`. -/
def sample_expanded : OSCRouteObserver :=
  { sample_observer 0 0 with _expand := 1, _init := true, strip_connections := [] }

/-! ## Calls from outside and the states they reach -/

/-- A call of a member function from outside, with the engine as it is at that
moment. -/
inductive Call
  | refresh_strip (e : Engine) (new_strip : Option Nat) (force : Bool)
  | clear_strip
  | set_link_ready (e : Engine) (not_ready : Nat)
  | set_expand (expand : Nat)
  | no_strip
  | tick (e : Engine)

/-- The member function a call runs. -/
def Call.run : Call → Step
  | .refresh_strip e new_strip force => OSCRouteObserver.refresh_strip e new_strip force
  | .clear_strip => OSCRouteObserver.clear_strip
  | .set_link_ready e not_ready => OSCRouteObserver.set_link_ready e not_ready
  | .set_expand expand => OSCRouteObserver.set_expand expand
  | .no_strip => OSCRouteObserver.no_strip
  | .tick e => OSCRouteObserver.tick e

/-- Calls one after the other. -/
def run_calls (cs : List Call) : Step := seq (cs.map Call.run)

/-- The observers that construction followed by completed calls can produce. -/
inductive Reachable : OSCRouteObserver → Prop
  | construct (e : Engine) (ss : Nat) (sur : OSCSurface) (junk o : OSCRouteObserver)
      (sent : List Msg) :
      OSCRouteObserver.construct e ss sur junk = .ok o sent → Reachable o
  | call (c : Call) (o o' : OSCRouteObserver) (sent : List Msg) :
      Reachable o → c.run o = .ok o' sent → Reachable o'

/-- The observer after a completed run satisfies `Q`. -/
def Outcome.Ensures (r : Outcome) (Q : OSCRouteObserver → Prop) : Prop :=
  match r with
  | .ok o _ => Q o
  | .fault _ => True

/-- The statement `f` leaves the bound strip, the expand selector, the slot id and
the initialising flag as they are. -/
def Keeps (f : Step) : Prop :=
  ∀ o, (f o).Ensures fun o' =>
    o'._strip = o._strip ∧ o'._expand = o._expand ∧ o'.ssid = o.ssid ∧ o'._init = o._init

/-! ## The initial-sync burst, message by message -/

namespace OSCRouteObserver

/-- The message `send_change_message` sends for a control that is present. -/
def change_msgs (o : OSCRouteObserver) (path : String) (c : Option Controllable) : List Msg :=
  match c with
  | some c => [o.float_msg path (c.internal_to_interface c.get_value)]
  | none => []

/-- The two messages of `send_monitor_status` for the monitoring control `c`. -/
def monitor_msgs (o : OSCRouteObserver) (c : Controllable) : List Msg :=
  [⟨"/strip/monitor_input", o.ssid,
      .int (if truncate c.get_value = 1 ∨ truncate c.get_value = 3 then 1 else 0), o.in_line⟩,
   ⟨"/strip/monitor_disk", o.ssid,
      .int (if truncate c.get_value = 2 ∨ truncate c.get_value = 3 then 1 else 0), o.in_line⟩]

/-- The button messages of the initial sync of strip `st`, in the order of lines
128-169, on a strip whose record-safe control is present when its record-enable
control is. -/
def button_burst (o : OSCRouteObserver) (st : Stripable) : List Msg :=
  [o.text_msg "/strip/name" st.name,
   ⟨"/strip/hide", o.ssid, .int (if st.is_hidden then 1 else 0), o.in_line⟩,
   o.float_msg "/strip/mute" (st.mute_control.internal_to_interface st.mute_control.get_value),
   o.float_msg "/strip/solo" (st.solo_control.internal_to_interface st.solo_control.get_value)] ++
  change_msgs o "/strip/solo_iso" st.solo_isolate_control ++
  change_msgs o "/strip/solo_safe" st.solo_safe_control ++
  (match st.monitoring_control with
   | some c => monitor_msgs o c
   | none => []) ++
  change_msgs o "/strip/recenable" st.rec_enable_control ++
  (if st.rec_enable_control.isSome then change_msgs o "/strip/record_safe" st.rec_safe_control
   else []) ++
  [o.float_msg "/strip/select" (ofBool st.is_selected)]

/-- The level messages of the initial sync of strip `st` in the order of lines
171-188, on caches that hold the sentinel `-1`. -/
def level_burst (e : Engine) (o : OSCRouteObserver) (st : Stripable) : List Msg :=
  (if o.gainmode ≠ 0 then
    [o.float_msg "/strip/fader"
      (st.gain_control.internal_to_interface st.gain_control.get_value)]
   else []) ++
  (if o.gainmode = 1 then
    [o.text_msg "/strip/name"
      (e.compose_fixed2 (e.accurate_coefficient_to_dB st.gain_control.get_value))]
   else []) ++
  (if o.gainmode = 0 ∨ o.gainmode = 2 then
    [o.float_msg "/strip/gain"
      (if st.gain_control.get_value < 1 / 10 ^ 15 then -200
       else e.accurate_coefficient_to_dB st.gain_control.get_value)]
   else []) ++
  [o.float_msg ((if o.gainmode ≠ 0 then "/strip/fader" else "/strip/gain") ++ "/automation")
      (automation_code st.gain_control.automation_state).1,
   o.text_msg ((if o.gainmode ≠ 0 then "/strip/fader" else "/strip/gain") ++ "/automation_name")
      (automation_code st.gain_control.automation_state).2] ++
  (match st.trim_control with
   | some c => [o.float_msg "/strip/trimdB" (e.accurate_coefficient_to_dB c.get_value)]
   | none => []) ++
  change_msgs o "/strip/pan_stereo_position" st.pan_azimuth_control

end OSCRouteObserver

/-! ## Sequencing lemmas -/

@[simp]
theorem Outcome.sent_ok (o : OSCRouteObserver) (sent : List Msg) :
    (Outcome.ok o sent).sent = sent := rfl

@[simp]
theorem Outcome.sent_fault (sent : List Msg) : (Outcome.fault sent).sent = sent := rfl

@[simp]
theorem Outcome.state_ok (o : OSCRouteObserver) (sent : List Msg) :
    (Outcome.ok o sent).state = some o := rfl

@[simp]
theorem Outcome.state_fault (sent : List Msg) : (Outcome.fault sent).state = none := rfl

@[simp]
theorem Outcome.prepend_ok (pre : List Msg) (o : OSCRouteObserver) (sent : List Msg) :
    (Outcome.ok o sent).prepend pre = .ok o (pre ++ sent) := rfl

@[simp]
theorem Outcome.prepend_fault (pre sent : List Msg) :
    (Outcome.fault sent).prepend pre = .fault (pre ++ sent) := rfl

@[simp]
theorem Outcome.andThen_ok (o : OSCRouteObserver) (sent : List Msg) (f : Step) :
    (Outcome.ok o sent).andThen f = (f o).prepend sent := rfl

@[simp]
theorem Outcome.andThen_fault (sent : List Msg) (f : Step) :
    (Outcome.fault sent).andThen f = .fault sent := rfl

@[simp]
theorem Outcome.prepend_ite (c : Prop) [Decidable c] (pre : List Msg) (a b : Outcome) :
    (if c then a else b).prepend pre = if c then a.prepend pre else b.prepend pre := by
  split <;> rfl

@[simp]
theorem Outcome.andThen_ite (c : Prop) [Decidable c] (a b : Outcome) (f : Step) :
    (if c then a else b).andThen f = if c then a.andThen f else b.andThen f := by
  split <;> rfl

@[simp]
theorem Outcome.sent_ite (c : Prop) [Decidable c] (a b : Outcome) :
    (if c then a else b).sent = if c then a.sent else b.sent := by
  split <;> rfl

@[simp]
theorem Outcome.sent_prepend (pre : List Msg) (r : Outcome) :
    (r.prepend pre).sent = pre ++ r.sent := by
  cases r <;> rfl

@[simp]
theorem Outcome.prepend_andThen (pre : List Msg) (r : Outcome) (f : Step) :
    (r.prepend pre).andThen f = (r.andThen f).prepend pre := by
  cases r with
  | ok o sent =>
    simp only [Outcome.prepend_ok, Outcome.andThen_ok]
    cases f o <;> simp
  | fault sent => rfl

@[simp]
theorem skip_apply (o : OSCRouteObserver) : skip o = .ok o [] := rfl

@[simp]
theorem seq_nil (o : OSCRouteObserver) : seq [] o = .ok o [] := rfl

@[simp]
theorem seq_cons (s : Step) (rest : List Step) (o : OSCRouteObserver) :
    seq (s :: rest) o = (s o).andThen (seq rest) := rfl

@[simp]
theorem step_ite (c : Prop) [Decidable c] (f g : Step) (o : OSCRouteObserver) :
    (if c then f else g) o = if c then f o else g o := by
  split <;> rfl

/-! ## Closed forms of the periodic tick -/

namespace OSCRouteObserver

/-- Sending the meter messages leaves the observer as it was. -/
theorem meter_changed_ok (now : ℚ) (o : OSCRouteObserver) :
    meter_changed now o = .ok o (meter_changed now o).sent := by
  simp only [meter_changed, seq_cons, seq_nil, step_ite, skip_apply]
  split_ifs <;> simp

/-- The meter messages depend on the slot id, the gain mode, the flags and the
routing hint only. -/
theorem meter_changed_sent_congr (now : ℚ) (o o' : OSCRouteObserver)
    (h1 : o'.ssid = o.ssid) (h2 : o'.gainmode = o.gainmode) (h3 : o'.feedback = o.feedback)
    (h4 : o'.in_line = o.in_line) :
    (meter_changed now o').sent = (meter_changed now o).sent := by
  simp only [meter_changed, seq_cons, seq_nil, step_ite, skip_apply, fb, h1, h2, h3, h4]
  split_ifs <;> simp [h1, h4]

/-- With the cache already holding the current gain, `send_gain_message` returns
at once. -/
theorem send_gain_message_mk (e : Engine) (s ssid gainmode feedback : Nat) (in_line : Bool)
    (conns : List Connection) (lt lm : ℚ) (gt : Nat) (init : Bool) (ex : Nat) (as : AutoState)
    (tb : Bool) :
    send_gain_message e ⟨ssid, gainmode, feedback, in_line, some s, conns,
        (e.strips s).gain_control.get_value, lt, lm, gt, init, ex, as, tb⟩ =
      .ok ⟨ssid, gainmode, feedback, in_line, some s, conns,
        (e.strips s).gain_control.get_value, lt, lm, gt, init, ex, as, tb⟩ [] := by
  simp [send_gain_message]

/-- Closed form of the meter block of `tick` on a bound observer. -/
theorem tick_meter_bound (e : Engine) (o : OSCRouteObserver) (s : Nat)
    (h : o._strip = some s) :
    tick_meter e o =
      .ok { o with _last_meter :=
              if o.fb 7 || o.fb 8 || o.fb 9 then now_meter (e.strips s) else o._last_meter }
        (if (o.fb 7 || o.fb 8 || o.fb 9) ∧ o._last_meter ≠ now_meter (e.strips s) then
          (meter_changed (now_meter (e.strips s)) o).sent else []) := by
  obtain ⟨ssid, gm, fbk, il, st, conns, lg, lt, lm, gt, init, ex, as, tb⟩ := o
  simp only at h
  subst h
  simp only [tick_meter, seq_cons, seq_nil, step_ite, skip_apply]
  by_cases h1 : (OSCRouteObserver.fb ⟨ssid, gm, fbk, il, some s, conns, lg, lt, lm, gt, init, ex, as, tb⟩ 7 ||
      OSCRouteObserver.fb ⟨ssid, gm, fbk, il, some s, conns, lg, lt, lm, gt, init, ex, as, tb⟩ 8 ||
      OSCRouteObserver.fb ⟨ssid, gm, fbk, il, some s, conns, lg, lt, lm, gt, init, ex, as, tb⟩ 9) = true
  · by_cases h2 : lm = now_meter (e.strips s)
    · simp [h1, h2]
    · rw [meter_changed_ok]; simp [h1, h2]
  · simp [h1]

/-- Closed form of the level block of `tick` on a bound observer: the automation
poll stores the gain and sends nothing. -/
theorem tick_level_bound (e : Engine) (o : OSCRouteObserver) (s : Nat)
    (h : o._strip = some s) :
    tick_level e o =
      .ok { o with
              gain_timeout := if o.fb 1 then o.gain_timeout - 1 else o.gain_timeout
              _last_gain :=
                if o.fb 1 ∧ (o.as = AutoState.Play ∨ o.as = AutoState.Touch) then
                  (e.strips s).gain_control.get_value
                else o._last_gain }
        (if o.fb 1 ∧ o.gain_timeout = 1 then
          [⟨"/strip/name", o.ssid, .text (e.strips s).name, o.in_line⟩] else []) := by
  obtain ⟨ssid, gm, fbk, il, st, conns, lg, lt, lm, gt, init, ex, as, tb⟩ := o
  simp only at h
  subst h
  simp only [tick_level, seq_cons, seq_nil, step_ite, skip_apply, fb]
  split_ifs <;> simp_all [send_gain_message_mk]

/-- Closed form of `tick` on a bound observer that is not initialising. -/
theorem tick_bound (e : Engine) (o : OSCRouteObserver) (s : Nat)
    (h : o._strip = some s) (hi : o._init = false) :
    tick e o =
      .ok { o with
              _tick_busy := false
              _last_meter :=
                if o.fb 7 || o.fb 8 || o.fb 9 then now_meter (e.strips s) else o._last_meter
              gain_timeout := if o.fb 1 then o.gain_timeout - 1 else o.gain_timeout
              _last_gain :=
                if o.fb 1 ∧ (o.as = AutoState.Play ∨ o.as = AutoState.Touch) then
                  (e.strips s).gain_control.get_value
                else o._last_gain }
        ((if (o.fb 7 || o.fb 8 || o.fb 9) ∧ o._last_meter ≠ now_meter (e.strips s) then
            (meter_changed (now_meter (e.strips s)) o).sent else []) ++
          (if o.fb 1 ∧ o.gain_timeout = 1 then
            [⟨"/strip/name", o.ssid, .text (e.strips s).name, o.in_line⟩] else [])) := by
  obtain ⟨ssid, gm, fbk, il, st, conns, lg, lt, lm, gt, init, ex, as, tb⟩ := o
  simp only at h hi
  subst h hi
  have hm := meter_changed_sent_congr (now_meter (e.strips s))
    ⟨ssid, gm, fbk, il, some s, conns, lg, lt, lm, gt, false, ex, as, tb⟩
    ⟨ssid, gm, fbk, il, some s, conns, lg, lt, lm, gt, false, ex, as, true⟩ rfl rfl rfl rfl
  have h1 := tick_meter_bound e
    ⟨ssid, gm, fbk, il, some s, conns, lg, lt, lm, gt, false, ex, as, true⟩ s rfl
  simp only [tick, seq_cons, seq_nil, Bool.false_eq_true, if_false]
  rw [h1, hm]
  simp only [Outcome.andThen_ok, seq_cons, seq_nil]
  rw [tick_level_bound e _ s rfl]
  simp [fb]
/-- The meter block sends on `/strip/meter` and `/strip/signal` only. -/
theorem meter_changed_paths (now : ℚ) (o : OSCRouteObserver) :
    ∀ m ∈ (meter_changed now o).sent, m.path = "/strip/meter" ∨ m.path = "/strip/signal" := by
  simp only [meter_changed, seq_cons, seq_nil, step_ite, skip_apply]
  split_ifs <;> simp

/-- The signal message of the meter block. -/
theorem meter_changed_signal (now : ℚ) (o : OSCRouteObserver) :
    (meter_changed now o).sent.filter (fun m => m.path = "/strip/signal") =
      if o.fb 9 then [⟨"/strip/signal", o.ssid, .float (if now < -40 then 0 else 1), o.in_line⟩]
      else [] := by
  simp only [meter_changed, seq_cons, seq_nil, step_ite, skip_apply]
  split_ifs <;> simp

/-- The meter block sends no name. -/
theorem meter_changed_name (now : ℚ) (o : OSCRouteObserver) :
    (meter_changed now o).sent.filter (fun m => m.path = "/strip/name") = [] := by
  rw [List.filter_eq_nil_iff]
  intro m hm
  rcases meter_changed_paths now o m hm with h | h <;> simp [h]

/-- One tick of a bound observer with level feedback: the countdown drops by one
and the strip name is sent when it stood at one. -/
theorem tick_step (e : Engine) (o : OSCRouteObserver) (s : Nat)
    (h : o._strip = some s) (hi : o._init = false) (h1 : o.fb 1 = true) :
    ∃ o' ms, tick e o = .ok o' ms ∧ o'._strip = some s ∧ o'._init = false ∧
      o'.fb 1 = true ∧ o'.ssid = o.ssid ∧ o'.in_line = o.in_line ∧
      o'.gain_timeout = o.gain_timeout - 1 ∧
      ms.filter (fun m => m.path = "/strip/name") =
        if o.gain_timeout = 1 then
          [⟨"/strip/name", o.ssid, .text (e.strips s).name, o.in_line⟩] else [] := by
  refine ⟨_, _, tick_bound e o s h hi, h, hi, h1, rfl, rfl, by simp [h1], ?_⟩
  rw [List.filter_append]
  by_cases hc : (o.fb 7 || o.fb 8 || o.fb 9) = true ∧ o._last_meter ≠ now_meter (e.strips s)
  · rw [if_pos hc, meter_changed_name]
    by_cases hg : o.gain_timeout = 1 <;> simp [h1, hg]
  · rw [if_neg hc]
    by_cases hg : o.gain_timeout = 1 <;> simp [h1, hg]

/-- Ticks send no name while the countdown is over or has not reached one. -/
theorem ticks_no_name (es : List Engine) :
    ∀ (o : OSCRouteObserver) (s : Nat), o._strip = some s → o._init = false → o.fb 1 = true →
      (o.gain_timeout = 0 ∨ es.length < o.gain_timeout) →
      ∃ o' ms, seq (es.map tick) o = .ok o' ms ∧ o'._strip = some s ∧ o'._init = false ∧
        o'.fb 1 = true ∧ o'.ssid = o.ssid ∧ o'.in_line = o.in_line ∧
        o'.gain_timeout = o.gain_timeout - es.length ∧
        ∀ m ∈ ms, m.path ≠ "/strip/name" := by
  induction es with
  | nil => intro o s h hi h1 _; exact ⟨o, [], rfl, h, hi, h1, rfl, rfl, rfl, by simp⟩
  | cons e es ih =>
    intro o s h hi h1 hg
    obtain ⟨o1, ms1, ht, hs1, hi1, hf1, hid1, hil1, hgt1, hn1⟩ := tick_step e o s h hi h1
    have hne : o.gain_timeout ≠ 1 := by
      rcases hg with hg | hg
      · omega
      · simp at hg; omega
    rw [if_neg hne] at hn1
    obtain ⟨o2, ms2, hr, hs2, hi2, hf2, hid2, hil2, hgt2, hn2⟩ :=
      ih o1 s hs1 hi1 hf1 (by rcases hg with hg | hg
                              · left; omega
                              · right; simp at hg; omega)
    refine ⟨o2, ms1 ++ ms2, ?_, hs2, hi2, hf2, hid2.trans hid1, hil2.trans hil1, ?_, ?_⟩
    · simp [ht, hr]
    · simp [hgt2, hgt1]; omega
    · intro m hm
      rcases List.mem_append.1 hm with hm | hm
      · intro hp
        have : m ∈ ms1.filter (fun m => m.path = "/strip/name") := by
          simp [List.mem_filter, hm, hp]
        rw [hn1] at this
        simp at this
      · exact hn2 m hm


/-- `send_gain_message` in gain mode 1 on a changed gain. -/
theorem send_gain_message_mode1 (e : Engine) (o : OSCRouteObserver) (s : Nat)
    (h : o._strip = some s) (hm : o.gainmode = 1)
    (hg : o._last_gain ≠ (e.strips s).gain_control.get_value) :
    send_gain_message e o =
      .ok { o with _last_gain := (e.strips s).gain_control.get_value, gain_timeout := 8 }
        [⟨"/strip/fader", o.ssid,
            .float ((e.strips s).gain_control.internal_to_interface
              (e.strips s).gain_control.get_value), o.in_line⟩,
         ⟨"/strip/name", o.ssid,
            .text (e.compose_fixed2
              (e.accurate_coefficient_to_dB (e.strips s).gain_control.get_value)), o.in_line⟩] := by
  simp [send_gain_message, h, hm, hg]

/-- The payload of the `/strip/meter` message of the meter block. -/
theorem meter_changed_payload (now : ℚ) (o : OSCRouteObserver) :
    ∀ msg ∈ (meter_changed now o).sent, msg.path = "/strip/meter" →
      msg.payload =
        if o.fb 7 then (if o.gainmode ≠ 0 then .float ((now + 94) / 100) else .float now)
        else .int (ledbits now) := by
  simp only [meter_changed, seq_cons, seq_nil, step_ite, skip_apply]
  split_ifs <;> simp_all

/-- The meter block sends one meter message when a meter flag is active and one
signal message when the signal flag is. -/
theorem meter_changed_length (now : ℚ) (o : OSCRouteObserver) :
    (meter_changed now o).sent.length =
      (if o.fb 7 || o.fb 8 then 1 else 0) + (if o.fb 9 then 1 else 0) := by
  simp only [meter_changed, seq_cons, seq_nil, step_ite, skip_apply]
  split_ifs <;> simp_all

/-- Every message of the meter block is a meter or a signal message. -/
theorem meter_changed_filter (now : ℚ) (o : OSCRouteObserver) :
    (meter_changed now o).sent.filter
        (fun m => m.path = "/strip/meter" ∨ m.path = "/strip/signal") =
      (meter_changed now o).sent := by
  rw [List.filter_eq_self]
  intro m hm
  simpa using meter_changed_paths now o m hm

/-- With the cache holding the current gain `send_gain_message` sends nothing. -/
theorem send_gain_message_cached (e : Engine) (o : OSCRouteObserver) (s : Nat)
    (h : o._strip = some s) (hg : o._last_gain = (e.strips s).gain_control.get_value) :
    send_gain_message e o = .ok o [] := by
  simp [send_gain_message, h, hg]

/-- Closed form of `send_gain_message` on a gain that differs from the cache. -/
theorem send_gain_message_changed (e : Engine) (o : OSCRouteObserver) (s : Nat)
    (h : o._strip = some s) (hg : o._last_gain ≠ (e.strips s).gain_control.get_value) :
    send_gain_message e o =
      .ok { o with
              _last_gain := (e.strips s).gain_control.get_value
              gain_timeout := if o.gainmode = 1 then 8 else o.gain_timeout }
        ((if o.gainmode ≠ 0 then
            [⟨"/strip/fader", o.ssid,
              .float ((e.strips s).gain_control.internal_to_interface
                (e.strips s).gain_control.get_value), o.in_line⟩]
          else []) ++
         (if o.gainmode = 1 then
            [⟨"/strip/name", o.ssid,
              .text (e.compose_fixed2
                (e.accurate_coefficient_to_dB (e.strips s).gain_control.get_value)), o.in_line⟩]
          else []) ++
         (if o.gainmode = 0 ∨ o.gainmode = 2 then
            [⟨"/strip/gain", o.ssid,
              .float (if (e.strips s).gain_control.get_value < 1 / 10 ^ 15 then -200
                else e.accurate_coefficient_to_dB (e.strips s).gain_control.get_value),
              o.in_line⟩]
          else [])) := by
  by_cases h0 : o.gainmode = 0
  · simp [send_gain_message, h, hg, h0]
    split_ifs <;> simp
  · by_cases h1 : o.gainmode = 1
    · simp [send_gain_message, h, hg, h1]
    · by_cases h2 : o.gainmode = 2
      · simp [send_gain_message, h, hg, h2]
        split_ifs <;> simp
      · simp [send_gain_message, h, hg, h0, h1, h2]

/-- With the cache holding the current trim `send_trim_message` sends nothing. -/
theorem send_trim_message_cached (e : Engine) (o : OSCRouteObserver) (s : Nat)
    (c : Controllable) (h : o._strip = some s) (hc : (e.strips s).trim_control = some c)
    (ht : o._last_trim = c.get_value) :
    send_trim_message e o = .ok o [] := by
  simp [send_trim_message, h, hc, ht]

/-- Closed form of `send_trim_message` on a trim that differs from the cache. -/
theorem send_trim_message_changed (e : Engine) (o : OSCRouteObserver) (s : Nat)
    (c : Controllable) (h : o._strip = some s) (hc : (e.strips s).trim_control = some c)
    (ht : o._last_trim ≠ c.get_value) :
    send_trim_message e o =
      .ok { o with _last_trim := c.get_value }
        [⟨"/strip/trimdB", o.ssid, .float (e.accurate_coefficient_to_dB c.get_value),
          o.in_line⟩] := by
  simp [send_trim_message, h, hc, ht]

/-- The clamp at `-120` does not move a sample across the signal threshold `-40`. -/
theorem now_meter_signal (st : Stripable) :
    (now_meter st < -40) ↔ (st.peak_meter.getD (-193) < -40) := by
  unfold now_meter
  cases st.peak_meter with
  | none => simp
  | some m =>
    simp only [Option.getD_some]
    split_ifs with h
    · constructor
      · intro _; linarith
      · intro _; norm_num
    · rfl

/-- Clearing always completes; it sets `_init` and drops the connections. -/
theorem clear_strip_ok (o : OSCRouteObserver) :
    clear_strip o = .ok { o with _init := true, strip_connections := [] } (clear_strip o).sent := by
  simp only [clear_strip, seq_cons, seq_nil, step_ite, skip_apply, fb]
  split_ifs <;> simp

/-- The messages of `clear_strip`, in order. -/
theorem clear_strip_sent (o : OSCRouteObserver) :
    (clear_strip o).sent =
      [o.float_msg "/strip/expand" 0] ++
      (if o.fb 0 then
        [o.text_msg "/strip/name" " ", o.float_msg "/strip/mute" 0, o.float_msg "/strip/solo" 0,
         o.float_msg "/strip/recenable" 0, o.float_msg "/strip/record_safe" 0,
         o.float_msg "/strip/monitor_input" 0, o.float_msg "/strip/monitor_disk" 0,
         o.float_msg "/strip/gui_select" 0, o.float_msg "/strip/select" 0]
       else []) ++
      (if o.fb 1 then
        [if o.gainmode ≠ 0 then o.float_msg "/strip/fader" 0 else o.float_msg "/strip/gain" (-193),
         o.float_msg "/strip/trimdB" 0, o.float_msg "/strip/pan_stereo_position" (1 / 2)]
       else []) ++
      (if o.fb 9 then [o.float_msg "/strip/signal" 0] else []) ++
      (if o.fb 7 then
        [if o.gainmode ≠ 0 then o.float_msg "/strip/meter" 0 else o.float_msg "/strip/meter" (-193)]
       else if o.fb 8 then [o.float_msg "/strip/meter" 0] else []) := by
  simp only [clear_strip, seq_cons, seq_nil, step_ite, skip_apply, fb]
  split_ifs <;> simp

/-- The messages of `clear_strip` depend on the slot id, the gain mode, the flags
and the routing hint only. -/
theorem clear_strip_sent_congr (o o' : OSCRouteObserver)
    (h1 : o'.ssid = o.ssid) (h2 : o'.gainmode = o.gainmode) (h3 : o'.feedback = o.feedback)
    (h4 : o'.in_line = o.in_line) :
    (clear_strip o').sent = (clear_strip o).sent := by
  rw [clear_strip_sent, clear_strip_sent]
  simp [fb, h1, h2, h3, h4]


/-- Rebinding to the empty strip, when the short-circuit does not apply, re-sends the
selection status of the old strip and then clears the slot. -/
theorem refresh_strip_empty (e : Engine) (o : OSCRouteObserver) (force : Bool)
    (h : force = true ∨ o._strip ≠ none) :
    refresh_strip e none force o =
      .ok { o with
              _init := true, strip_connections := [], _strip := none,
              _last_gain := -1, _last_trim := -1 }
        ((send_select_status e [Property.selected] o).sent ++ (clear_strip o).sent) := by
  have hc : ¬ (none = o._strip ∧ force = false) := by
    rintro ⟨h1, h2⟩
    rcases h with h | h
    · simp [h2] at h
    · exact h h1.symm
  have hs := clear_strip_sent_congr o
    { o with _init := true, _last_gain := -1, _last_trim := -1, strip_connections := [],
             _strip := none } rfl rfl rfl rfl
  cases hst : o._strip with
  | none =>
    simp only [hst] at hc
    simp only [refresh_strip, send_select_status, hst, seq_cons, seq_nil, if_true,
      Outcome.andThen_ok, hc, if_false]
    rw [clear_strip_ok, hs]
    simp
  | some s =>
    simp only [refresh_strip, send_select_status, hst, seq_cons, seq_nil, if_true,
      float_message, Outcome.andThen_ok, reduceCtorEq, false_and, if_false]
    rw [clear_strip_ok, hs]
    simp

/-- Construction on a slot index at or beyond the strip count starts with the burst of
`clear_strip`. -/
theorem construct_out_of_range (e : Engine) (ss : Nat) (sur : OSCSurface)
    (junk : OSCRouteObserver)
    (h : (sur.bank + ss + 2 ^ 32 - 2) % 2 ^ 32 ≥ sur.strips.length) :
    ∃ post, (construct e ss sur junk).sent = (clear_strip (initial ss sur junk)).sent ++ post := by
  have hs := clear_strip_sent_congr (initial ss sur junk)
    { initial ss sur junk with _strip := none } rfl rfl rfl rfl
  by_cases hn : sur.not_ready = 0
  · simp only [construct, seq_cons, seq_nil, step_ite, hn, ne_eq, not_true_eq_false, if_false, h,
      if_true]
    rw [clear_strip_ok, hs]
    simp only [Outcome.andThen_ok, Outcome.sent_prepend]
    exact ⟨_, rfl⟩
  · simp only [construct, seq_cons, seq_nil, step_ite, hn, ne_eq, not_false_eq_true, if_true,
      set_link_ready]
    rw [clear_strip_ok]
    simp only [Outcome.andThen_ok, Outcome.sent_prepend, Outcome.prepend_andThen, Outcome.sent_ok]
    exact ⟨_, rfl⟩

/-- Closed form of `send_monitor_status` on a control that is present. -/
theorem send_monitor_status_some (c : Controllable) (o : OSCRouteObserver) :
    send_monitor_status (some c) o = .ok o (monitor_msgs o c) := by
  simp only [send_monitor_status, monitor_msgs, seq_cons, seq_nil, int_message]
  split_ifs <;> simp_all

/-- Closed form of the button block of `refresh_strip` when the record-safe control is
present whenever the record-enable control is: it completes, adds connections and
sends `button_burst`. -/
theorem refresh_buttons_ok (e : Engine) (s : Nat) (o : OSCRouteObserver)
    (h : o._strip = some s)
    (hrec : (e.strips s).rec_enable_control.isSome → (e.strips s).rec_safe_control.isSome) :
    ∃ conns, refresh_buttons e s o =
      .ok { o with strip_connections := o.strip_connections ++ conns }
        (button_burst o (e.strips s)) := by
  obtain ⟨ssid, gm, fbk, il, st, conns, lg, lt, lm, gt, init, ex, as, tb⟩ := o
  simp only at h
  subst h
  cases h1 : (e.strips s).solo_isolate_control <;>
  cases h2 : (e.strips s).solo_safe_control <;>
  cases h3 : (e.strips s).monitoring_control <;>
  cases h4 : (e.strips s).rec_enable_control <;>
  cases h5 : (e.strips s).rec_safe_control <;>
  simp [h4, h5] at hrec <;>
  simp [refresh_buttons, button_burst, name_changed, send_select_status, send_change_message,
    change_msgs, monitor_msgs, h1, h2, h3, h4, h5, send_monitor_status_some]


/-- Closed form of `send_gain_message` on a gain cache that holds the sentinel. -/
theorem send_gain_message_reset (e : Engine) (s ssid gm fbk : Nat) (il : Bool)
    (conns : List Connection) (lt lm : ℚ) (gt : Nat) (init : Bool) (ex : Nat) (as : AutoState)
    (tb : Bool) (hg : (e.strips s).gain_control.get_value ≠ -1) :
    send_gain_message e ⟨ssid, gm, fbk, il, some s, conns, -1, lt, lm, gt, init, ex, as, tb⟩ =
      .ok ⟨ssid, gm, fbk, il, some s, conns, (e.strips s).gain_control.get_value, lt, lm,
            if gm = 1 then 8 else gt, init, ex, as, tb⟩
        ((if gm ≠ 0 then
            [⟨"/strip/fader", ssid,
              .float ((e.strips s).gain_control.internal_to_interface
                (e.strips s).gain_control.get_value), il⟩]
          else []) ++
         (if gm = 1 then
            [⟨"/strip/name", ssid,
              .text (e.compose_fixed2
                (e.accurate_coefficient_to_dB (e.strips s).gain_control.get_value)), il⟩]
          else []) ++
         (if gm = 0 ∨ gm = 2 then
            [⟨"/strip/gain", ssid,
              .float (if (e.strips s).gain_control.get_value < 1 / 10 ^ 15 then -200
                else e.accurate_coefficient_to_dB (e.strips s).gain_control.get_value), il⟩]
          else [])) :=
  send_gain_message_changed e _ s rfl (fun hh => hg hh.symm)

/-- Closed form of `send_trim_message` on a trim cache that holds the sentinel. -/
theorem send_trim_message_reset (e : Engine) (s ssid gm fbk : Nat) (il : Bool)
    (conns : List Connection) (lg lm : ℚ) (gt : Nat) (init : Bool) (ex : Nat) (as : AutoState)
    (tb : Bool) (c : Controllable) (hc : (e.strips s).trim_control = some c)
    (ht : c.get_value ≠ -1) :
    send_trim_message e ⟨ssid, gm, fbk, il, some s, conns, lg, -1, lm, gt, init, ex, as, tb⟩ =
      .ok ⟨ssid, gm, fbk, il, some s, conns, lg, c.get_value, lm, gt, init, ex, as, tb⟩
        [⟨"/strip/trimdB", ssid, .float (e.accurate_coefficient_to_dB c.get_value), il⟩] :=
  send_trim_message_changed e _ s c rfl hc (fun hh => ht hh.symm)

/-- Closed form of the level block of `refresh_strip` on caches that hold the sentinel:
it completes and sends `level_burst`. -/
theorem refresh_levels_ok (e : Engine) (s : Nat) (o : OSCRouteObserver)
    (h : o._strip = some s) (hlg : o._last_gain = -1) (hlt : o._last_trim = -1)
    (hg : (e.strips s).gain_control.get_value ≠ -1)
    (ht : ∀ c, (e.strips s).trim_control = some c → c.get_value ≠ -1) :
    ∃ o', refresh_levels e s o = .ok o' (level_burst e o (e.strips s)) ∧
      o'._strip = some s ∧ o'.ssid = o.ssid ∧ o'.gainmode = o.gainmode ∧
      o'.feedback = o.feedback ∧ o'.in_line = o.in_line ∧ o'._init = o._init := by
  obtain ⟨ssid, gm, fbk, il, st, conns, lg, lt, lm, gt, init, ex, as, tb⟩ := o
  simp only at h hlg hlt
  subst h hlg hlt
  cases h1 : (e.strips s).trim_control with
  | none =>
    cases h2 : (e.strips s).pan_azimuth_control <;>
    simp [refresh_levels, level_burst, gain_automation, send_gain_message_reset _ _ _ _ _ _ _ _ _ _ _ _ _ _ hg,
      send_change_message, change_msgs, h1, h2]
  | some c =>
    have hc := ht c h1
    cases h2 : (e.strips s).pan_azimuth_control <;>
    simp [refresh_levels, level_burst, gain_automation, send_gain_message_reset _ _ _ _ _ _ _ _ _ _ _ _ _ _ hg,
      send_trim_message_reset _ _ _ _ _ _ _ _ _ _ _ _ _ _ c h1 hc,
      send_change_message, change_msgs, h1, h2]

/-- Sending the selection status leaves the observer as it was. -/
theorem send_select_status_ok (e : Engine) (w : List Property) (o : OSCRouteObserver) :
    send_select_status e w o = .ok o (send_select_status e w o).sent := by
  unfold send_select_status
  split_ifs
  · cases o._strip <;> simp
  · rfl

/-- The selection message depends on the slot id, the bound strip and the routing hint
only. -/
theorem send_select_status_sent_congr (e : Engine) (w : List Property) (o o' : OSCRouteObserver)
    (h1 : o'.ssid = o.ssid) (h2 : o'._strip = o._strip) (h4 : o'.in_line = o.in_line) :
    (send_select_status e w o').sent = (send_select_status e w o).sent := by
  unfold send_select_status
  rw [h2]
  split_ifs
  · cases o._strip <;> simp [h1, h4]
  · rfl

/-- A tick on a bound observer completes and sends meter, signal and name messages only. -/
theorem tick_bound_sent (e : Engine) (o : OSCRouteObserver) (s : Nat)
    (h : o._strip = some s) (hi : o._init = false) :
    ∃ o' ms, tick e o = .ok o' ms ∧ o'._strip = some s ∧ o'._init = false ∧
      ∀ m ∈ ms, m.path = "/strip/meter" ∨ m.path = "/strip/signal" ∨ m.path = "/strip/name" := by
  refine ⟨_, _, tick_bound e o s h hi, h, hi, ?_⟩
  intro m hm
  rcases List.mem_append.1 hm with hm | hm
  · split_ifs at hm
    · rcases meter_changed_paths _ _ m hm with hp | hp
      · exact Or.inl hp
      · exact Or.inr (Or.inl hp)
    · simp at hm
  · split_ifs at hm
    · simp at hm
      exact Or.inr (Or.inr (by simp [hm]))
    · simp at hm

/-- Forced rebinding to a strip whose record-safe control is present whenever its
record-enable control is, and whose gain and trim differ from the sentinel `-1`:
the run completes and sends the selection status of the old strip, the button
burst when button feedback is active, the level burst when level feedback is
active, and the messages of the closing tick. -/
theorem refresh_strip_forced (e : Engine) (o : OSCRouteObserver) (s : Nat)
    (hrec : (e.strips s).rec_enable_control.isSome → (e.strips s).rec_safe_control.isSome)
    (hg : (e.strips s).gain_control.get_value ≠ -1)
    (ht : ∀ c, (e.strips s).trim_control = some c → c.get_value ≠ -1) :
    ∃ o' tail, refresh_strip e (some s) true o =
        .ok o' ((send_select_status e [Property.selected] o).sent ++
          (if o.fb 0 then button_burst o (e.strips s) else []) ++
          (if o.fb 1 then level_burst e o (e.strips s) else []) ++ tail) ∧
      o'._strip = some s ∧ o'._init = false ∧
      ∀ m ∈ tail, m.path = "/strip/meter" ∨ m.path = "/strip/signal" ∨ m.path = "/strip/name" := by
  obtain ⟨ssid, gm, fbk, il, st, conns, lg, lt, lm, gt, init, ex, as, tb⟩ := o
  -- the button block
  have hB : ∃ oB, (if Nat.testBit fbk 0 then refresh_buttons e s else skip)
        ⟨ssid, gm, fbk, il, some s, [⟨s, Handler.no_strip⟩], -1, -1, lm, gt, true, ex,
          AutoState.Off, tb⟩ =
      .ok oB (if Nat.testBit fbk 0 then
          button_burst ⟨ssid, gm, fbk, il, st, conns, lg, lt, lm, gt, init, ex, as, tb⟩
            (e.strips s) else []) ∧
      oB._strip = some s ∧ oB._last_gain = -1 ∧ oB._last_trim = -1 ∧ oB.ssid = ssid ∧
      oB.gainmode = gm ∧ oB.feedback = fbk ∧ oB.in_line = il := by
    by_cases h0 : Nat.testBit fbk 0 = true
    · obtain ⟨bc, hb⟩ := refresh_buttons_ok e s
        ⟨ssid, gm, fbk, il, some s, [⟨s, Handler.no_strip⟩], -1, -1, lm, gt, true, ex,
          AutoState.Off, tb⟩ rfl hrec
      exact ⟨_, by simp only [h0, if_true]; exact hb, rfl, rfl, rfl, rfl, rfl, rfl, rfl⟩
    · refine ⟨⟨ssid, gm, fbk, il, some s, [⟨s, Handler.no_strip⟩], -1, -1, lm, gt, true, ex,
          AutoState.Off, tb⟩, ?_, rfl, rfl, rfl, rfl, rfl, rfl, rfl⟩
      simp only [h0, Bool.false_eq_true, if_false, skip_apply]
  obtain ⟨oB, hB1, hBs, hBg, hBt, hBid, hBgm, hBfb, hBil⟩ := hB
  -- the level block
  have hL : ∃ oL, (if Nat.testBit fbk 1 then refresh_levels e s else skip) oB =
      .ok oL (if Nat.testBit fbk 1 then
          level_burst e ⟨ssid, gm, fbk, il, st, conns, lg, lt, lm, gt, init, ex, as, tb⟩
            (e.strips s) else []) ∧ oL._strip = some s := by
    by_cases h1 : Nat.testBit fbk 1 = true
    · obtain ⟨oL, hl, hls, hlid, hlgm, -, hlil, -⟩ := refresh_levels_ok e s oB hBs hBg hBt hg ht
      refine ⟨oL, ?_, hls⟩
      simp only [h1, if_true]
      rw [hl]
      cases (e.strips s).pan_azimuth_control <;> simp [level_burst, change_msgs, hBid, hBgm, hBil]
    · exact ⟨oB, by simp only [h1, Bool.false_eq_true, if_false, skip_apply], hBs⟩
  obtain ⟨oL, hL1, hLs⟩ := hL
  obtain ⟨oT, tail, hT, hTs, hTi, hTp⟩ := tick_bound_sent e { oL with _init := false } s hLs rfl
  refine ⟨oT, tail, ?_, hTs, hTi, hTp⟩
  have hsel := send_select_status_ok e [Property.selected]
    ⟨ssid, gm, fbk, il, st, conns, -1, -1, lm, gt, true, ex, as, tb⟩
  have hsel' := send_select_status_sent_congr e [Property.selected]
    ⟨ssid, gm, fbk, il, st, conns, lg, lt, lm, gt, init, ex, as, tb⟩
    ⟨ssid, gm, fbk, il, st, conns, -1, -1, lm, gt, true, ex, as, tb⟩ rfl rfl rfl
  simp only [refresh_strip, seq_cons, seq_nil, connect, fb]
  rw [hsel, hsel']
  simp only [Outcome.andThen_ok, Bool.true_eq_false, and_false, if_false, seq_cons, seq_nil,
    Outcome.prepend_ok, List.nil_append, List.append_nil]
  rw [hB1]
  simp only [Outcome.andThen_ok, seq_cons, seq_nil, Outcome.prepend_ok]
  rw [hL1]
  simp only [Outcome.andThen_ok, seq_cons, seq_nil, Outcome.prepend_ok, Outcome.prepend_andThen]
  rw [hT]
  simp [fb]

/-- On a bound observer `send_gain_message` completes and leaves the cache at the
current gain. -/
theorem send_gain_message_ok (e : Engine) (o : OSCRouteObserver) (s : Nat)
    (h : o._strip = some s) :
    ∃ o1 ms, send_gain_message e o = .ok o1 ms ∧ o1._strip = some s ∧
      o1.ssid = o.ssid ∧ o1.in_line = o.in_line ∧ o1.gainmode = o.gainmode ∧
      o1._last_gain = (e.strips s).gain_control.get_value := by
  by_cases hg : o._last_gain = (e.strips s).gain_control.get_value
  · exact ⟨o, [], send_gain_message_cached e o s h hg, h, rfl, rfl, rfl, hg⟩
  · exact ⟨_, _, send_gain_message_changed e o s h hg, h, rfl, rfl, rfl, rfl⟩

/-- On a non-negative value the conversion to `int` is the floor. -/
theorem truncate_eq_floor (q : ℚ) (hq : 0 ≤ q) : truncate q = ⌊q⌋ := by
  rw [Rat.floor_def, truncate]
  exact Int.tdiv_eq_ediv (Rat.num_nonneg.2 hq) (by exact_mod_cast Nat.zero_le _)

/-- From the sample -50.25 upwards the LED level is not negative. -/
theorem led_level_nonneg (m : ℚ) (hm : -201 / 4 ≤ m) : 0 ≤ (m + 54) / (15 / 4) - 1 := by
  rw [sub_nonneg, le_div_iff₀ (by norm_num)]
  linarith

/-- The LED level as computed on 32 bits is the truncated value when that lies in
`0..31`. -/
theorem ledlvl_eq (m : ℚ) (hm : -201 / 4 ≤ m)
    (hL : truncate ((m + 54) / (15 / 4) - 1) < 32) :
    ledlvl m = (truncate ((m + 54) / (15 / 4) - 1)).toNat ∧
      (truncate ((m + 54) / (15 / 4) - 1)).toNat < 32 := by
  have h0 : 0 ≤ truncate ((m + 54) / (15 / 4) - 1) := by
    rw [truncate_eq_floor _ (led_level_nonneg m hm)]
    exact Int.floor_nonneg.2 (led_level_nonneg m hm)
  constructor
  · unfold ledlvl
    rw [Int.emod_eq_of_lt h0 (by omega)]
  · omega

/-- The low 12 bits of the mask for a level in `0..31`. -/
theorem ledbits_low (n : Nat) (hn : n < 32) :
    ((2 ^ 32 - 1 - (0xfff <<< (n % 32)) % 2 ^ 32) % 2 ^ 16) % 2 ^ 12 = 2 ^ (min n 12) - 1 := by
  interval_cases n <;> decide

/-- The low 12 bits of the LED mask of a sample. -/
theorem led_mask (m : ℚ) (hm : -201 / 4 ≤ m)
    (hL : truncate ((m + 54) / (15 / 4) - 1) < 32) :
    ledbits m % 2 ^ 12 = 2 ^ (min (truncate ((m + 54) / (15 / 4) - 1)).toNat 12) - 1 := by
  obtain ⟨h1, h2⟩ := ledlvl_eq m hm hL
  unfold ledbits
  rw [h1]
  exact ledbits_low _ h2

/-- A LED among the first 12 lit for a sample is lit for every higher sample. -/
theorem led_mask_mono (m1 m2 : ℚ) (hm : -201 / 4 ≤ m1) (h12 : m1 ≤ m2)
    (hL : truncate ((m2 + 54) / (15 / 4) - 1) < 32) (i : Nat) (hi : i < 12)
    (hb : (ledbits m1).testBit i = true) : (ledbits m2).testBit i = true := by
  have hm2 : -201 / 4 ≤ m2 := le_trans hm h12
  have hq : (m1 + 54) / (15 / 4) - 1 ≤ (m2 + 54) / (15 / 4) - 1 := by
    apply sub_le_sub_right
    apply div_le_div_of_nonneg_right _ (by norm_num)
    linarith
  have hLL : truncate ((m1 + 54) / (15 / 4) - 1) ≤ truncate ((m2 + 54) / (15 / 4) - 1) := by
    rw [truncate_eq_floor _ (led_level_nonneg m1 hm), truncate_eq_floor _ (led_level_nonneg m2 hm2)]
    exact Int.floor_mono hq
  have hL1 : truncate ((m1 + 54) / (15 / 4) - 1) < 32 := lt_of_le_of_lt hLL hL
  have e1 := led_mask m1 hm hL1
  have e2 := led_mask m2 hm2 hL
  have t1 : (ledbits m1 % 2 ^ 12).testBit i = (ledbits m1).testBit i := by
    rw [Nat.testBit_mod_two_pow]; simp [hi]
  have t2 : (ledbits m2 % 2 ^ 12).testBit i = (ledbits m2).testBit i := by
    rw [Nat.testBit_mod_two_pow]; simp [hi]
  rw [← t1, e1, Nat.testBit_two_pow_sub_one] at hb
  rw [← t2, e2, Nat.testBit_two_pow_sub_one]
  simp only [decide_eq_true_eq] at hb ⊢
  have : (truncate ((m1 + 54) / (15 / 4) - 1)).toNat ≤ (truncate ((m2 + 54) / (15 / 4) - 1)).toNat :=
    Int.toNat_le_toNat hLL
  omega

/-- A property of the final observer passes through sequencing. -/
theorem Outcome.ensures_andThen {r : Outcome} {f : Step} {P Q : OSCRouteObserver → Prop}
    (hr : r.Ensures P) (hf : ∀ o, P o → (f o).Ensures Q) : (r.andThen f).Ensures Q := by
  cases r with
  | ok o sent =>
    have := hf o hr
    simp only [Outcome.andThen_ok]
    cases hfo : f o with
    | ok o' s' => rw [hfo] at this; exact this
    | fault s' => trivial
  | fault sent => trivial

/-- A completed run ensures what holds of its observer. -/
theorem Outcome.ensures_ok {o : OSCRouteObserver} {sent : List Msg}
    {Q : OSCRouteObserver → Prop} (h : Q o) : (Outcome.ok o sent).Ensures Q := h

/-- The empty statement keeps the frame. -/
theorem keeps_skip : Keeps skip := fun _ => ⟨rfl, rfl, rfl, rfl⟩

/-- A sequence of statements that keep the frame keeps it. -/
theorem keeps_seq {l : List Step} (h : ∀ f ∈ l, Keeps f) : Keeps (seq l) := by
  induction l with
  | nil => exact keeps_skip
  | cons f rest ih =>
    intro o
    simp only [seq_cons]
    refine Outcome.ensures_andThen (h f (List.mem_cons_self _ _) o) ?_
    intro o1 h1
    have := ih (fun g hg => h g (List.mem_cons_of_mem _ hg)) o1
    cases hs : seq rest o1 with
    | ok o2 s2 =>
      rw [hs] at this
      obtain ⟨a, b, c, d⟩ := this
      obtain ⟨a1, b1, c1, d1⟩ := h1
      exact ⟨a.trans a1, b.trans b1, c.trans c1, d.trans d1⟩
    | fault s2 => trivial

/-- A conditional of statements that keep the frame keeps it. -/
theorem keeps_ite (c : Prop) [Decidable c] {f g : Step} (hf : Keeps f) (hg : Keeps g) :
    Keeps (if c then f else g) := by
  split_ifs <;> assumption

/-- Sending a float keeps the frame. -/
theorem keeps_float_message (p : String) (v : ℚ) : Keeps (float_message p v) :=
  fun _ => ⟨rfl, rfl, rfl, rfl⟩

/-- Sending an integer keeps the frame. -/
theorem keeps_int_message (p : String) (v : Int) : Keeps (int_message p v) :=
  fun _ => ⟨rfl, rfl, rfl, rfl⟩

/-- Sending a text keeps the frame. -/
theorem keeps_text_message (p : String) (v : String) : Keeps (text_message p v) :=
  fun _ => ⟨rfl, rfl, rfl, rfl⟩

/-- Connecting a handler keeps the frame. -/
theorem keeps_connect (s : Nat) (h : Handler) : Keeps (connect s h) :=
  fun _ => ⟨rfl, rfl, rfl, rfl⟩

/-- A run that ends at once keeps the frame. -/
theorem keeps_fault : Keeps (fun _ => Outcome.fault []) := fun _ => trivial

/-- `send_change_message` keeps the frame. -/
theorem keeps_send_change_message (p : String) (c : Option Controllable) :
    Keeps (send_change_message p c) := by
  intro o
  cases c <;> simp [send_change_message, Outcome.Ensures]

/-- `send_monitor_status` keeps the frame. -/
theorem keeps_send_monitor_status (c : Option Controllable) : Keeps (send_monitor_status c) := by
  intro o
  cases c with
  | none => simp [send_monitor_status, Outcome.Ensures]
  | some c => rw [send_monitor_status_some]; exact ⟨rfl, rfl, rfl, rfl⟩

/-- `name_changed` keeps the frame. -/
theorem keeps_name_changed (e : Engine) (w : List Property) : Keeps (name_changed e w) := by
  intro o
  by_cases hw : Property.name ∈ w <;> cases h : o._strip <;>
    simp [name_changed, hw, h, Outcome.Ensures]

/-- `send_select_status` keeps the frame. -/
theorem keeps_send_select_status (e : Engine) (w : List Property) :
    Keeps (send_select_status e w) := by
  intro o
  rw [send_select_status_ok]
  exact ⟨rfl, rfl, rfl, rfl⟩

/-- `send_gain_message` keeps the frame. -/
theorem keeps_send_gain_message (e : Engine) : Keeps (send_gain_message e) := by
  intro o
  cases h : o._strip with
  | none => simp [send_gain_message, h, Outcome.Ensures]
  | some s =>
    by_cases hg : o._last_gain = (e.strips s).gain_control.get_value
    · rw [send_gain_message_cached e o s h hg]; exact ⟨h.symm ▸ rfl, rfl, rfl, rfl⟩
    · rw [send_gain_message_changed e o s h hg]; exact ⟨h.symm ▸ rfl, rfl, rfl, rfl⟩

/-- `send_trim_message` keeps the frame. -/
theorem keeps_send_trim_message (e : Engine) : Keeps (send_trim_message e) := by
  intro o
  cases h : o._strip with
  | none => simp [send_trim_message, h, Outcome.Ensures]
  | some s =>
    cases hc : (e.strips s).trim_control with
    | none => simp [send_trim_message, h, hc, Outcome.Ensures]
    | some c =>
      by_cases ht : o._last_trim = c.get_value
      · rw [send_trim_message_cached e o s c h hc ht]; exact ⟨h.symm ▸ rfl, rfl, rfl, rfl⟩
      · rw [send_trim_message_changed e o s c h hc ht]; exact ⟨h.symm ▸ rfl, rfl, rfl, rfl⟩

/-- `gain_automation` keeps the frame. -/
theorem keeps_gain_automation (e : Engine) : Keeps (gain_automation e) := by
  intro o
  unfold gain_automation
  simp only [seq_cons, seq_nil]
  refine Outcome.ensures_andThen (keeps_send_gain_message e o) ?_
  intro o1 h1
  cases hs : o1._strip with
  | none => simp [hs, Outcome.Ensures]
  | some s =>
    simp only [hs, float_message, text_message, seq_cons, seq_nil, Outcome.andThen_ok,
      Outcome.prepend_ok, Outcome.Ensures]
    obtain ⟨a, b, c, d⟩ := h1
    exact ⟨hs ▸ a, b, c, d⟩

/-- The button block of `refresh_strip` keeps the frame, whether or not it completes. -/
theorem keeps_refresh_buttons (e : Engine) (s : Nat) : Keeps (refresh_buttons e s) := by
  unfold refresh_buttons
  apply keeps_seq
  intro f hf
  simp only [List.mem_cons, List.mem_singleton, List.not_mem_nil, or_false] at hf
  rcases hf with rfl | rfl | rfl | rfl | rfl | rfl | rfl | rfl | rfl | rfl | rfl | rfl | rfl |
    rfl | rfl
  · exact keeps_connect _ _
  · exact keeps_name_changed _ _
  · exact keeps_connect _ _
  · exact keeps_int_message _ _
  · exact keeps_connect _ _
  · exact keeps_send_change_message _ _
  · exact keeps_connect _ _
  · exact keeps_send_change_message _ _
  · exact keeps_ite _ (keeps_seq (by
      intro g hg
      simp only [List.mem_cons, List.mem_singleton, List.not_mem_nil, or_false] at hg
      rcases hg with rfl | rfl
      · exact keeps_connect _ _
      · exact keeps_send_change_message _ _)) keeps_skip
  · exact keeps_ite _ (keeps_seq (by
      intro g hg
      simp only [List.mem_cons, List.mem_singleton, List.not_mem_nil, or_false] at hg
      rcases hg with rfl | rfl
      · exact keeps_connect _ _
      · exact keeps_send_change_message _ _)) keeps_skip
  · exact keeps_ite _ (keeps_seq (by
      intro g hg
      simp only [List.mem_cons, List.mem_singleton, List.not_mem_nil, or_false] at hg
      rcases hg with rfl | rfl
      · exact keeps_connect _ _
      · exact keeps_send_monitor_status _)) keeps_skip
  · exact keeps_ite _ (keeps_seq (by
      intro g hg
      simp only [List.mem_cons, List.mem_singleton, List.not_mem_nil, or_false] at hg
      rcases hg with rfl | rfl
      · exact keeps_connect _ _
      · exact keeps_send_change_message _ _)) keeps_skip
  · refine keeps_ite _ ?_ keeps_skip
    cases (e.strips s).rec_safe_control with
    | none => exact keeps_fault
    | some c =>
      exact keeps_seq (by
        intro g hg
        simp only [List.mem_cons, List.mem_singleton, List.not_mem_nil, or_false] at hg
        rcases hg with rfl | rfl
        · exact keeps_connect _ _
        · exact keeps_send_change_message _ _)
  · exact keeps_connect _ _
  · exact keeps_send_select_status _ _

/-- The level block of `refresh_strip` keeps the frame. -/
theorem keeps_refresh_levels (e : Engine) (s : Nat) : Keeps (refresh_levels e s) := by
  unfold refresh_levels
  apply keeps_seq
  intro f hf
  simp only [List.mem_cons, List.mem_singleton, List.not_mem_nil, or_false] at hf
  rcases hf with rfl | rfl | rfl | rfl | rfl
  · exact keeps_connect _ _
  · exact keeps_connect _ _
  · exact keeps_gain_automation _
  · exact keeps_ite _ (keeps_seq (by
      intro g hg
      simp only [List.mem_cons, List.mem_singleton, List.not_mem_nil, or_false] at hg
      rcases hg with rfl | rfl
      · exact keeps_connect _ _
      · exact keeps_send_trim_message _)) keeps_skip
  · exact keeps_ite _ (keeps_seq (by
      intro g hg
      simp only [List.mem_cons, List.mem_singleton, List.not_mem_nil, or_false] at hg
      rcases hg with rfl | rfl
      · exact keeps_connect _ _
      · exact keeps_send_change_message _ _)) keeps_skip

/-- A weaker property is ensured as well. -/
theorem Outcome.ensures_mono {r : Outcome} {P Q : OSCRouteObserver → Prop}
    (hr : r.Ensures P) (h : ∀ o, P o → Q o) : r.Ensures Q := by
  cases r with
  | ok o sent => exact h o hr
  | fault sent => trivial

/-- A tick, on any observer, changes neither the bound strip, the expand selector,
the slot id, the initialising flag nor the connections. -/
theorem tick_frame (e : Engine) (o : OSCRouteObserver) :
    (tick e o).Ensures fun o' =>
      o'._strip = o._strip ∧ o'._expand = o._expand ∧ o'.ssid = o.ssid ∧ o'._init = o._init ∧
        o'.strip_connections = o.strip_connections := by
  cases hi : o._init with
  | true => simp [tick, hi, Outcome.Ensures]
  | false =>
    cases h : o._strip with
    | some s =>
      rw [tick_bound e o s h hi]
      exact ⟨h, rfl, rfl, hi, rfl⟩
    | none =>
      obtain ⟨ssid, gm, fbk, il, st, conns, lg, lt, lm, gt, init, ex, as, tb⟩ := o
      simp only at h hi
      subst h hi
      by_cases hm : (Nat.testBit fbk 7 || Nat.testBit fbk 8 || Nat.testBit fbk 9) = true
      · simp [tick, tick_meter, fb, hm, Outcome.Ensures]
      · by_cases h1 : Nat.testBit fbk 1 = true
        · by_cases hg0 : gt = 0 <;> by_cases hg1 : gt = 1 <;>
            by_cases ha : as = AutoState.Play ∨ as = AutoState.Touch <;>
            simp [tick, tick_meter, tick_level, fb, hm, h1, hg0, hg1, ha, Outcome.Ensures]
        · simp [tick, tick_meter, tick_level, fb, hm, h1, Outcome.Ensures]

/-- Whenever `refresh_strip` with a strip completes, the observer is bound to that
strip and past its initial sync; the expand selector and the slot id are as before. -/
theorem refresh_strip_some_frame (e : Engine) (s : Nat) (force : Bool) (o : OSCRouteObserver) :
    (refresh_strip e (some s) force o).Ensures fun o' =>
      o'._strip = some s ∧ o'._init = false ∧ o'._expand = o._expand ∧ o'.ssid = o.ssid := by
  have hk : ∀ (f : Step), Keeps f → ∀ o1 : OSCRouteObserver,
      (o1._strip = some s ∧ o1._expand = o._expand ∧ o1.ssid = o.ssid) →
      (f o1).Ensures fun o' => o'._strip = some s ∧ o'._expand = o._expand ∧ o'.ssid = o.ssid := by
    intro f hf o1 h1
    refine Outcome.ensures_mono (hf o1) ?_
    rintro o2 ⟨a, b, c, -⟩
    exact ⟨a.trans h1.1, b.trans h1.2.1, c.trans h1.2.2⟩
  have hR : ∀ {r : Outcome} {Q : OSCRouteObserver → Prop}, r.Ensures Q →
      ∀ pre, (r.prepend pre).Ensures Q := by
    intro r Q hr pre
    cases r <;> exact hr
  simp only [refresh_strip, seq_cons, seq_nil]
  rw [send_select_status_ok]
  simp only [Outcome.andThen_ok]
  apply hR
  refine Outcome.ensures_andThen (P := fun o' =>
    o'._strip = some s ∧ o'._init = false ∧ o'._expand = o._expand ∧ o'.ssid = o.ssid) ?_
    (fun o1 h1 => h1)
  by_cases hc : some s = o._strip ∧ force = false
  · simp only [hc, and_self, if_true]
    exact ⟨rfl, rfl, rfl, rfl⟩
  · simp only [hc, if_false, seq_cons, seq_nil]
    refine Outcome.ensures_andThen (hk _ (keeps_connect s Handler.no_strip) _ ⟨rfl, rfl, rfl⟩) ?_
    intro o1 h1
    simp only [seq_cons, seq_nil]
    refine Outcome.ensures_andThen
      (P := fun o' => o'._strip = some s ∧ o'._expand = o._expand ∧ o'.ssid = o.ssid)
      (Outcome.ensures_ok h1) ?_
    intro o2 h2
    simp only [seq_cons, seq_nil]
    refine Outcome.ensures_andThen
      (hk _ (keeps_ite _ (keeps_refresh_buttons e s) keeps_skip) o2 h2) ?_
    intro o3 h3
    simp only [seq_cons, seq_nil]
    refine Outcome.ensures_andThen
      (hk _ (keeps_ite _ (keeps_refresh_levels e s) keeps_skip) o3 h3) ?_
    intro o4 h4
    simp only [seq_cons, seq_nil]
    refine Outcome.ensures_andThen
      (P := fun o' => o'._strip = some s ∧ o'._expand = o._expand ∧ o'.ssid = o.ssid ∧
        o'._init = false) (Outcome.ensures_ok ⟨h4.1, h4.2.1, h4.2.2, rfl⟩) ?_
    intro o5 h5
    simp only [seq_cons, seq_nil]
    refine Outcome.ensures_andThen (tick_frame e o5) ?_
    rintro o6 ⟨a, b, c, d, -⟩
    exact ⟨a.trans h5.1, d.trans h5.2.2.2, b.trans h5.2.1, c.trans h5.2.2.1⟩

/-- Closed form of `set_expand`. -/
theorem set_expand_eq (o : OSCRouteObserver) (selector : Nat) :
    set_expand selector o =
      .ok { o with _expand := selector }
        (if selector ≠ o._expand then
          [o.float_msg "/strip/expand" (if selector = o.ssid then 1 else 0)]
         else []) := by
  obtain ⟨ssid, gm, fbk, il, st, conns, lg, lt, lm, gt, init, ex, as, tb⟩ := o
  by_cases h2 : selector = ssid
  · subst h2
    by_cases h : selector = ex <;> simp [set_expand, h]
  · by_cases h : selector = ex <;> simp [set_expand, h, h2]

/-- Closed form of `set_link_ready` on a count that is not zero: the slot is cleared
and the placeholder of the slot is sent. -/
theorem set_link_ready_wait (e : Engine) (o : OSCRouteObserver) (k : Nat) (hk : k ≠ 0) :
    set_link_ready e k o =
      .ok { o with _init := true, strip_connections := [] }
        ((clear_strip o).sent ++
          (if o.ssid = 1 then [o.text_msg "/strip/name" "Device"]
           else if o.ssid = 2 then [o.text_msg "/strip/name" (toString k)]
           else if o.ssid = 3 then [o.text_msg "/strip/name" "Missing"]
           else if o.ssid = 4 then [o.text_msg "/strip/name" "from"]
           else if o.ssid = 5 then [o.text_msg "/strip/name" "Linkset"]
           else [])) := by
  simp only [set_link_ready, hk, ne_eq, not_false_eq_true, if_true, seq_cons, seq_nil]
  rw [clear_strip_ok]
  simp only [Outcome.andThen_ok, step_ite, skip_apply, text_message, text_msg]
  split_ifs <;> simp

/-- `refresh_strip` keeps the invariant of the connections: an observer without
strip, or one that is initialising, holds no connection. -/
theorem refresh_strip_inv (e : Engine) (n : Option Nat) (force : Bool) (o : OSCRouteObserver)
    (hinv : (o._strip = none ∨ o._init = true) → o.strip_connections = []) :
    (refresh_strip e n force o).Ensures fun o' =>
      (o'._strip = none ∨ o'._init = true) → o'.strip_connections = [] := by
  cases n with
  | some s =>
    refine Outcome.ensures_mono (refresh_strip_some_frame e s force o) ?_
    rintro o' ⟨h1, h2, -, -⟩ (h | h)
    · rw [h1] at h; cases h
    · rw [h2] at h; cases h
  | none =>
    by_cases h : force = true ∨ o._strip ≠ none
    · rw [refresh_strip_empty e o force h]
      intro _
      rfl
    · have hf : force = false := by
        cases force <;> simp_all
      have hs : o._strip = none := by
        by_contra hh
        exact h (Or.inr hh)
      simp only [refresh_strip, send_select_status, hs, hf, seq_cons, seq_nil, if_true,
        Outcome.andThen_ok, and_self]
      intro _
      exact hinv (Or.inl hs)

/-- Every call keeps the invariant of the connections. -/
theorem call_inv (c : Call) (o : OSCRouteObserver)
    (hinv : (o._strip = none ∨ o._init = true) → o.strip_connections = []) :
    (c.run o).Ensures fun o' =>
      (o'._strip = none ∨ o'._init = true) → o'.strip_connections = [] := by
  cases c with
  | refresh_strip e n force => exact refresh_strip_inv e n force o hinv
  | clear_strip =>
    show (clear_strip o).Ensures _
    rw [clear_strip_ok]
    intro _
    rfl
  | set_link_ready e k =>
    show (set_link_ready e k o).Ensures _
    by_cases hk : k = 0
    · simp only [set_link_ready, hk, ne_eq, not_true_eq_false, if_false]
      exact refresh_strip_inv e _ true o hinv
    · rw [set_link_ready_wait e o k hk]
      intro _
      rfl
  | set_expand x =>
    show (set_expand x o).Ensures _
    rw [set_expand_eq]
    exact hinv
  | no_strip =>
    intro _
    rfl
  | tick e =>
    refine Outcome.ensures_mono (tick_frame e o) ?_
    rintro o' ⟨h1, -, -, h4, h5⟩ h
    rw [h5]
    apply hinv
    rw [← h1, ← h4]
    exact h

/-- Construction establishes the invariant of the connections. -/
theorem construct_inv (e : Engine) (ss : Nat) (sur : OSCSurface) (junk : OSCRouteObserver) :
    (construct e ss sur junk).Ensures fun o' =>
      (o'._strip = none ∨ o'._init = true) → o'.strip_connections = [] := by
  have hexp : ∀ (x : Nat) (o : OSCRouteObserver),
      ((o._strip = none ∨ o._init = true) → o.strip_connections = []) →
      (set_expand x o).Ensures fun o' =>
        (o'._strip = none ∨ o'._init = true) → o'.strip_connections = [] := by
    intro x o h
    rw [set_expand_eq]
    exact h
  simp only [construct, seq_cons, seq_nil]
  refine Outcome.ensures_andThen (P := fun o' =>
    (o'._strip = none ∨ o'._init = true) → o'.strip_connections = []) ?_ ?_
  · split_ifs with h1 h2
    · rw [set_link_ready_wait e _ _ h1]
      intro _
      rfl
    · show (clear_strip _).Ensures _
      rw [clear_strip_ok]
      intro _
      rfl
    · exact refresh_strip_inv e _ true _ (fun _ => rfl)
  · intro o1 h1
    refine Outcome.ensures_andThen (P := fun o' =>
      (o'._strip = none ∨ o'._init = true) → o'.strip_connections = []) ?_ (fun o2 h2 => h2)
    split_ifs
    · exact hexp _ _ h1
    · exact hexp _ _ h1

/-- A completed sequence splits into its two completed parts. -/
theorem Outcome.andThen_eq_ok {r : Outcome} {f : Step} {o' : OSCRouteObserver} {ms : List Msg}
    (h : r.andThen f = .ok o' ms) :
    ∃ o1 m1 m2, r = .ok o1 m1 ∧ f o1 = .ok o' m2 ∧ ms = m1 ++ m2 := by
  cases r with
  | fault sent => simp at h
  | ok o1 m1 =>
    simp only [Outcome.andThen_ok] at h
    cases hf : f o1 with
    | fault s2 => rw [hf] at h; simp at h
    | ok o2 m2 =>
      rw [hf] at h
      simp only [Outcome.prepend_ok, Outcome.ok.injEq] at h
      exact ⟨o1, m1, m2, rfl, by rw [hf, h.1], h.2.symm⟩

/-- `refresh_strip` changes neither the expand selector nor the slot id. -/
theorem refresh_strip_expand_frame (e : Engine) (n : Option Nat) (force : Bool)
    (o : OSCRouteObserver) :
    (refresh_strip e n force o).Ensures fun o' => o'._expand = o._expand ∧ o'.ssid = o.ssid := by
  cases n with
  | some s =>
    exact Outcome.ensures_mono (refresh_strip_some_frame e s force o) (fun _ h => ⟨h.2.2.1, h.2.2.2⟩)
  | none =>
    by_cases h : force = true ∨ o._strip ≠ none
    · rw [refresh_strip_empty e o force h]
      exact ⟨rfl, rfl⟩
    · have hf : force = false := by
        cases force <;> simp_all
      have hs : o._strip = none := by
        by_contra hh
        exact h (Or.inr hh)
      simp only [refresh_strip, send_select_status, hs, hf, seq_cons, seq_nil, if_true,
        Outcome.andThen_ok, and_self]
      exact ⟨rfl, rfl⟩

/-- A call that sends no `/strip/expand` message changes neither the expand selector
nor the slot id. -/
theorem call_expand_frame (c : Call) (o o' : OSCRouteObserver) (ms : List Msg)
    (h : c.run o = .ok o' ms) (hno : ∀ m ∈ ms, m.path ≠ "/strip/expand") :
    o'._expand = o._expand ∧ o'.ssid = o.ssid := by
  cases c with
  | refresh_strip e n force =>
    have := refresh_strip_expand_frame e n force o
    rw [show OSCRouteObserver.refresh_strip e n force o = .ok o' ms from h] at this
    exact this
  | clear_strip =>
    have h' : clear_strip o = .ok o' ms := h
    rw [clear_strip_ok] at h'
    simp only [Outcome.ok.injEq] at h'
    rw [← h'.1]
    exact ⟨rfl, rfl⟩
  | set_link_ready e k =>
    have h' : set_link_ready e k o = .ok o' ms := h
    by_cases hk : k = 0
    · simp only [set_link_ready, hk, ne_eq, not_true_eq_false, if_false] at h'
      have := refresh_strip_expand_frame e o._strip true o
      rw [h'] at this
      exact this
    · rw [set_link_ready_wait e o k hk] at h'
      simp only [Outcome.ok.injEq] at h'
      rw [← h'.1]
      exact ⟨rfl, rfl⟩
  | set_expand x =>
    have h' : set_expand x o = .ok o' ms := h
    rw [set_expand_eq] at h'
    simp only [Outcome.ok.injEq] at h'
    obtain ⟨h1, h2⟩ := h'
    by_cases hx : x = o._expand
    · rw [← h1]
      exact ⟨hx, rfl⟩
    · exfalso
      rw [if_pos hx] at h2
      exact hno _ (by rw [← h2]; exact List.mem_singleton_self _) rfl
  | no_strip =>
    have h' : no_strip o = .ok o' ms := h
    simp only [no_strip, Outcome.ok.injEq] at h'
    rw [← h'.1]
    exact ⟨rfl, rfl⟩
  | tick e =>
    have := tick_frame e o
    rw [show OSCRouteObserver.tick e o = .ok o' ms from h] at this
    exact ⟨this.2.1, this.2.2.1⟩

/-- Calls that send no `/strip/expand` message change neither the expand selector
nor the slot id. -/
theorem run_calls_expand_frame (cs : List Call) :
    ∀ (o o' : OSCRouteObserver) (ms : List Msg), run_calls cs o = .ok o' ms →
      (∀ m ∈ ms, m.path ≠ "/strip/expand") → o'._expand = o._expand ∧ o'.ssid = o.ssid := by
  induction cs with
  | nil =>
    intro o o' ms h _
    simp only [run_calls, List.map_nil, seq_nil, Outcome.ok.injEq] at h
    rw [← h.1]
    exact ⟨rfl, rfl⟩
  | cons c cs ih =>
    intro o o' ms h hno
    simp only [run_calls, List.map_cons, seq_cons] at h
    obtain ⟨o1, m1, m2, h1, h2, hm⟩ := Outcome.andThen_eq_ok h
    subst hm
    have a := call_expand_frame c o o1 m1 h1 (fun m hm => hno m (List.mem_append_left _ hm))
    have b := ih o1 o' m2 h2 (fun m hm => hno m (List.mem_append_right _ hm))
    exact ⟨b.1.trans a.1, b.2.trans a.2⟩

/-- A run whose final observer is known is a completed run. -/
theorem Outcome.eq_ok_of_state {r : Outcome} {o : OSCRouteObserver} (h : r.state = some o) :
    r = .ok o r.sent := by
  cases r with
  | ok o1 sent => simp only [Outcome.state_ok, Option.some.injEq] at h; rw [h]; rfl
  | fault sent => simp at h

/-- The messages of the meter block in bit-mask mode. -/
theorem meter_changed_bitmask (now : ℚ) (o : OSCRouteObserver)
    (h8 : o.fb 8 = true) (h7 : o.fb 7 = false) :
    (meter_changed now o).sent =
      ⟨"/strip/meter", o.ssid, .int (ledbits now), o.in_line⟩ ::
        (if o.fb 9 then [o.float_msg "/strip/signal" (if now < -40 then 0 else 1)] else []) := by
  by_cases h9 : o.fb 9 = true <;> by_cases hg : o.gainmode = 0 <;>
    simp [meter_changed, h7, h8, h9, hg]

/-! ## The claims -/

/-- Claim C1, evaluated where the code departs from it: the observer is bound,
past its initial sync, has level feedback active and the cached automation state
`Play`, and the strip's gain `1` differs from the cached gain `0`. In each of
the gain modes 0, 1 and 2 one `tick` stores the gain in the cache and sends no
message at all: `tick` writes `_last_gain` before it calls `send_gain_message`,
which then finds the cache equal to the gain and returns. -/
theorem tick_automation_poll_sends_nothing :
    (sample_observer 0 2)._last_gain ≠ (sample_bus).gain_control.get_value ∧
    tick (sample_engine sample_bus) (sample_observer 0 2) =
      .ok { sample_observer 0 2 with _last_gain := 1 } [] ∧
    tick (sample_engine sample_bus) (sample_observer 1 2) =
      .ok { sample_observer 1 2 with _last_gain := 1 } [] ∧
    tick (sample_engine sample_bus) (sample_observer 2 2) =
      .ok { sample_observer 2 2 with _last_gain := 1 } [] := by
  have h7 : Nat.testBit 2 7 = false := by decide
  have h8 : Nat.testBit 2 8 = false := by decide
  have h9 : Nat.testBit 2 9 = false := by decide
  have h1 : Nat.testBit 2 1 = true := by decide
  refine ⟨by simp [sample_observer, sample_bus, sample_control], ?_, ?_, ?_⟩ <;>
    · rw [tick_bound _ _ 0 rfl rfl]
      simp [sample_observer, sample_engine, sample_bus, sample_control, fb, h7, h8, h9, h1]

/-- Claim C2 fails as stated: in gain mode 2, two runs of `send_gain_message`
on a changed gain send two messages in total (fader and gain), not one. -/
theorem gain_mode2_sends_two :
    (sample_observer 2 2)._strip = some 0 ∧
    (sample_observer 2 2)._last_gain ≠ sample_bus.gain_control.get_value ∧
    ((send_gain_message (sample_engine sample_bus) (sample_observer 2 2)).andThen
        (send_gain_message (sample_engine sample_bus))).sent =
      [⟨"/strip/fader", 1, .float 1, false⟩, ⟨"/strip/gain", 1, .float 1, false⟩] := by
  refine ⟨rfl, by norm_num [sample_observer, sample_bus, sample_control], ?_⟩
  norm_num [send_gain_message, sample_observer, sample_engine, sample_bus, sample_control]

/-- Claim C2 as amended: on a bound observer, for each cached quantity whose
cache differs from the strip's value (for the meter: the sample after the clamp
at -120), the first run sends that quantity's update, one message for trim, one
for gain outside the modes 1 and 2 and two in the modes 1 and 2, one meter
message when a meter flag is active plus one signal message when the signal flag
is, and a second run on the unchanged strip sends nothing for that quantity. -/
theorem dedup_second_run (e : Engine) (o : OSCRouteObserver) (s : Nat)
    (h : o._strip = some s) :
    (o._last_gain ≠ (e.strips s).gain_control.get_value →
      ∃ o1 ms, send_gain_message e o = .ok o1 ms ∧
        ms.length = (if o.gainmode = 1 ∨ o.gainmode = 2 then 2 else 1) ∧
        send_gain_message e o1 = .ok o1 []) ∧
    (∀ c, (e.strips s).trim_control = some c → o._last_trim ≠ c.get_value →
      ∃ o1 m, send_trim_message e o = .ok o1 [m] ∧ m.path = "/strip/trimdB" ∧
        send_trim_message e o1 = .ok o1 []) ∧
    (o._init = false → (o.fb 7 || o.fb 8 || o.fb 9) = true →
      o._last_meter ≠ now_meter (e.strips s) →
      ∃ o1 ms o2 ms2, tick e o = .ok o1 ms ∧ tick e o1 = .ok o2 ms2 ∧
        (ms.filter (fun m => m.path = "/strip/meter" ∨ m.path = "/strip/signal")).length =
          (if o.fb 7 || o.fb 8 then 1 else 0) + (if o.fb 9 then 1 else 0) ∧
        ms2.filter (fun m => m.path = "/strip/meter" ∨ m.path = "/strip/signal") = []) := by
  refine ⟨?_, ?_, ?_⟩
  · intro hg
    refine ⟨_, _, send_gain_message_changed e o s h hg, ?_,
      send_gain_message_cached e _ s h rfl⟩
    by_cases h0 : o.gainmode = 0
    · simp [h0]
    · by_cases h1 : o.gainmode = 1
      · simp [h1]
      · by_cases h2 : o.gainmode = 2
        · simp [h2]
        · simp [h0, h1, h2]
  · intro c hc ht
    exact ⟨_, _, send_trim_message_changed e o s c h hc ht, rfl,
      send_trim_message_cached e _ s c h hc rfl⟩
  · intro hi hf hm
    refine ⟨_, _, _, _, tick_bound e o s h hi, tick_bound e _ s h hi, ?_, ?_⟩
    · rw [if_pos ⟨hf, hm⟩, List.filter_append, meter_changed_filter, List.length_append,
        meter_changed_length]
      split_ifs <;> simp
    · simp only [hf, if_true, ne_eq, not_true_eq_false, and_false, if_false, List.nil_append]
      split_ifs <;> simp

/-- The amended claim C2 at a sample observer in gain mode 2 with the meter, signal
and level flags active. -/
theorem dedup_second_run_witness :
    (∃ o1 ms,
      send_gain_message (sample_engine sample_bus)
          { sample_observer 2 642 with _last_meter := -20 } = .ok o1 ms ∧
        ms.length = 2 ∧ send_gain_message (sample_engine sample_bus) o1 = .ok o1 []) ∧
    (∃ o1 m,
      send_trim_message (sample_engine sample_bus)
          { sample_observer 2 642 with _last_meter := -20 } = .ok o1 [m] ∧
        m.path = "/strip/trimdB" ∧ send_trim_message (sample_engine sample_bus) o1 = .ok o1 []) ∧
    (∃ o1 ms o2 ms2,
      tick (sample_engine sample_bus) { sample_observer 2 642 with _last_meter := -20 } =
          .ok o1 ms ∧
        tick (sample_engine sample_bus) o1 = .ok o2 ms2 ∧
        (ms.filter (fun m => m.path = "/strip/meter" ∨ m.path = "/strip/signal")).length = 2 ∧
        ms2.filter (fun m => m.path = "/strip/meter" ∨ m.path = "/strip/signal") = []) := by
  have h := dedup_second_run (sample_engine sample_bus)
    { sample_observer 2 642 with _last_meter := -20 } 0 rfl
  refine ⟨?_, ?_, ?_⟩
  · simpa [sample_observer] using
      h.1 (by norm_num [sample_observer, sample_engine, sample_bus, sample_control])
  · exact h.2.1 (sample_control 2) rfl
      (by norm_num [sample_observer, sample_control])
  · have h7 : Nat.testBit 642 7 = true := by decide
    have h9 : Nat.testBit 642 9 = true := by decide
    simpa [sample_observer, fb, h7, h9] using
      h.2.2 rfl (by decide)
        (by norm_num [sample_observer, sample_engine, sample_bus, now_meter])

/-- Claim C3: on an observer bound to strip `s`, `refresh_strip (s, false)` sends
exactly one message, `/strip/select` with the selection state of `s`, leaves the
connections and the bound strip as they were and returns with `_init` false
(only the gain and trim caches are reset); two such calls in a row send the two
`/strip/select` messages and nothing else. -/
theorem refresh_strip_same (e e' : Engine) (o : OSCRouteObserver) (s : Nat)
    (h : o._strip = some s) :
    refresh_strip e (some s) false o =
      .ok { o with _init := false, _last_gain := -1, _last_trim := -1 }
        [⟨"/strip/select", o.ssid, .float (ofBool (e.strips s).is_selected), o.in_line⟩] ∧
    (refresh_strip e (some s) false o).andThen (refresh_strip e' (some s) false) =
      .ok { o with _init := false, _last_gain := -1, _last_trim := -1 }
        [⟨"/strip/select", o.ssid, .float (ofBool (e.strips s).is_selected), o.in_line⟩,
         ⟨"/strip/select", o.ssid, .float (ofBool (e'.strips s).is_selected), o.in_line⟩] := by
  simp [refresh_strip, send_select_status, h]

/-- Claim C3 at a sample observer. -/
theorem refresh_strip_same_witness :
    refresh_strip (sample_engine sample_bus) (some 0) false (sample_observer 0 3) =
      .ok { sample_observer 0 3 with _init := false, _last_gain := -1, _last_trim := -1 }
        [⟨"/strip/select", 1, .float 1, false⟩] := by
  have h := (refresh_strip_same (sample_engine sample_bus) (sample_engine sample_bus)
    (sample_observer 0 3) 0 rfl).1
  simpa [sample_engine, sample_bus, sample_observer, ofBool] using h

/-- Claim C4, evaluated where the code departs from it: the observer is bound to the
strip, both button and level feedback are active, and the strip has a
record-enable control but no record-safe control. `refresh_strip (s, true)`
stops at the record-safe connection, after the record-enable message: none of the
gain, automation and trim messages and no second `/strip/select` is sent. -/
theorem forced_refresh_stops_before_levels :
    (sample_observer 2 3)._strip = some 0 ∧
    (sample_observer 2 3).fb 0 = true ∧ (sample_observer 2 3).fb 1 = true ∧
    refresh_strip (sample_engine sample_rec_only) (some 0) true (sample_observer 2 3) =
      .fault [
        ⟨"/strip/select", 1, .float 1, false⟩,
        ⟨"/strip/name", 1, .text "Bus", false⟩,
        ⟨"/strip/hide", 1, .int 0, false⟩,
        ⟨"/strip/mute", 1, .float 0, false⟩,
        ⟨"/strip/solo", 1, .float 0, false⟩,
        ⟨"/strip/recenable", 1, .float 0, false⟩] := by
  have h0 : Nat.testBit 3 0 = true := by decide
  have h1 : Nat.testBit 3 1 = true := by decide
  refine ⟨rfl, by decide, by decide, ?_⟩
  norm_num [refresh_strip, refresh_buttons, send_select_status, name_changed,
    send_change_message, sample_engine, sample_rec_only, sample_bus, sample_control,
    sample_observer, fb, h0, h1, ofBool]

/-- Claim C5 fails as stated: on an observer that is already unbound,
`refresh_strip (empty, false)` takes the short-circuit of line 113 and sends
nothing, so no neutral burst. -/
theorem refresh_unbound_with_empty_sends_nothing :
    refresh_strip (sample_engine sample_bus) none false
        { sample_observer 0 3 with _strip := none, _init := true, strip_connections := [] } =
      .ok { sample_observer 0 3 with
              _strip := none, _init := false, strip_connections := [],
              _last_gain := -1, _last_trim := -1 } [] := by
  simp [refresh_strip, send_select_status, sample_observer]

/-- Claim C5 as amended: `clear_strip` sends, for every observer `p`, the neutral
burst with the values listed (`/strip/expand 0` first; with level feedback
`/strip/fader 0` or `/strip/gain -193`, `/strip/trimdB 0` and
`/strip/pan_stereo_position 0.5`); `refresh_strip` with the empty strip sends
that burst, after the selection status, when `force` is true or the observer is
bound; and construction on a slot index at or beyond the strip count sends that
burst first. -/
theorem neutral_burst (e : Engine) (o : OSCRouteObserver) (force : Bool) (ss : Nat)
    (sur : OSCSurface) (junk : OSCRouteObserver) :
    (∀ p : OSCRouteObserver,
      (clear_strip p).sent =
        [p.float_msg "/strip/expand" 0] ++
        (if p.fb 0 then
          [p.text_msg "/strip/name" " ", p.float_msg "/strip/mute" 0,
           p.float_msg "/strip/solo" 0, p.float_msg "/strip/recenable" 0,
           p.float_msg "/strip/record_safe" 0, p.float_msg "/strip/monitor_input" 0,
           p.float_msg "/strip/monitor_disk" 0, p.float_msg "/strip/gui_select" 0,
           p.float_msg "/strip/select" 0]
         else []) ++
        (if p.fb 1 then
          [if p.gainmode ≠ 0 then p.float_msg "/strip/fader" 0
           else p.float_msg "/strip/gain" (-193),
           p.float_msg "/strip/trimdB" 0, p.float_msg "/strip/pan_stereo_position" (1 / 2)]
         else []) ++
        (if p.fb 9 then [p.float_msg "/strip/signal" 0] else []) ++
        (if p.fb 7 then
          [if p.gainmode ≠ 0 then p.float_msg "/strip/meter" 0
           else p.float_msg "/strip/meter" (-193)]
         else if p.fb 8 then [p.float_msg "/strip/meter" 0] else [])) ∧
    (force = true ∨ o._strip ≠ none →
      ∃ pre, (∀ m ∈ pre, m.path = "/strip/select") ∧
        (refresh_strip e none force o).sent = pre ++ (clear_strip o).sent) ∧
    ((sur.bank + ss + 2 ^ 32 - 2) % 2 ^ 32 ≥ sur.strips.length →
      ∃ post,
        (construct e ss sur junk).sent = (clear_strip (initial ss sur junk)).sent ++ post) := by
  refine ⟨clear_strip_sent, fun h => ?_, construct_out_of_range e ss sur junk⟩
  refine ⟨(send_select_status e [Property.selected] o).sent, ?_, ?_⟩
  · intro m hm
    cases hst : o._strip with
    | none => simp [send_select_status, hst] at hm
    | some s =>
      simp [send_select_status, hst] at hm
      simp [hm]
  · rw [refresh_strip_empty e o force h]
    rfl

/-- The amended claim C5 at a bound sample observer rebound to the empty strip and
at the construction of slot 1 on a surface without strips. -/
theorem neutral_burst_witness :
    (∃ pre, (∀ m ∈ pre, m.path = "/strip/select") ∧
      (refresh_strip (sample_engine sample_bus) none false (sample_observer 0 3)).sent =
        pre ++ (clear_strip (sample_observer 0 3)).sent) ∧
    (∃ post,
      (construct (sample_engine sample_bus) 1 ⟨0, 3, 1, [], 0, false, 0⟩
          (sample_observer 0 3)).sent =
        (clear_strip (initial 1 ⟨0, 3, 1, [], 0, false, 0⟩ (sample_observer 0 3))).sent ++
          post) :=
  ⟨(neutral_burst (sample_engine sample_bus) (sample_observer 0 3) false 1
      ⟨0, 3, 1, [], 0, false, 0⟩ (sample_observer 0 3)).2.1 (Or.inr (by decide)),
   (neutral_burst (sample_engine sample_bus) (sample_observer 0 3) false 1
      ⟨0, 3, 1, [], 0, false, 0⟩ (sample_observer 0 3)).2.2 (by decide)⟩

/-- Claim C6: `no_strip` sends nothing, sets `_init` and empties the connections;
from then on any number of ticks, whatever the engine holds at each of them,
send nothing and leave the observer as it is. -/
theorem no_strip_idle (o : OSCRouteObserver) :
    no_strip o = .ok { o with _init := true, strip_connections := [] } [] ∧
    ∀ es : List Engine,
      seq (es.map tick) { o with _init := true, strip_connections := [] } =
        .ok { o with _init := true, strip_connections := [] } [] := by
  refine ⟨rfl, fun es => ?_⟩
  induction es with
  | nil => rfl
  | cons e es ih => simp [tick, ih]

/-- Claim C7, evaluated where the code departs from it: the record-safe block of
`refresh_strip` is guarded by the record-enable control (line 163). On a strip
with record-enable and without record-safe the run reads the absent control and
does not complete; on a strip with record-safe and without record-enable the run
completes and sends nothing on `/strip/record_safe` although the control is
present. -/
theorem record_safe_guard_reads_record_enable :
    sample_rec_only.rec_safe_control.isSome = false ∧
    (refresh_strip (sample_engine sample_rec_only) (some 0) true (sample_observer 0 3)).state =
      none ∧
    sample_safe_only.rec_safe_control.isSome = true ∧
    (refresh_strip (sample_engine sample_safe_only) (some 0) true (sample_observer 0 3)).sent =
      [⟨"/strip/select", 1, .float 1, false⟩,
       ⟨"/strip/name", 1, .text "Bus", false⟩,
       ⟨"/strip/hide", 1, .int 0, false⟩,
       ⟨"/strip/mute", 1, .float 0, false⟩,
       ⟨"/strip/solo", 1, .float 0, false⟩,
       ⟨"/strip/select", 1, .float 1, false⟩,
       ⟨"/strip/gain", 1, .float 1, false⟩,
       ⟨"/strip/gain/automation", 1, .float 1, false⟩,
       ⟨"/strip/gain/automation_name", 1, .text "Play", false⟩,
       ⟨"/strip/trimdB", 1, .float 2, false⟩] := by
  have h0 : Nat.testBit 3 0 = true := by decide
  have h1 : Nat.testBit 3 1 = true := by decide
  have h7 : Nat.testBit 3 7 = false := by decide
  have h8 : Nat.testBit 3 8 = false := by decide
  have h9 : Nat.testBit 3 9 = false := by decide
  refine ⟨rfl, ?_, rfl, ?_⟩
  · norm_num [refresh_strip, refresh_buttons, send_select_status, name_changed,
      send_change_message, sample_engine, sample_rec_only, sample_bus, sample_control,
      sample_observer, fb, h0, h1, ofBool]
  · norm_num [refresh_strip, refresh_buttons, refresh_levels, send_select_status, name_changed,
      send_change_message, send_monitor_status, gain_automation, send_gain_message,
      send_trim_message, tick, tick_meter, tick_level, automation_code,
      sample_engine, sample_safe_only, sample_bus, sample_control, sample_observer, fb,
      h0, h1, h7, h8, h9, ofBool]
    exact ⟨by decide, by decide⟩

/-- Claim C8: in gain mode 1 with level feedback active, on a bound observer past
its initial sync, `send_gain_message` on a changed gain sends and sets the
countdown to 8; then each of the next 7 ticks sends no `/strip/name`, the 8th
tick sends exactly one `/strip/name`, carrying the strip's name, and leaves the
countdown at 0, and the ticks after it send no `/strip/name`. -/
theorem gain_name_countdown (e : Engine) (o : OSCRouteObserver) (s : Nat)
    (h : o._strip = some s) (hi : o._init = false) (hm : o.gainmode = 1) (h1 : o.fb 1 = true)
    (hg : o._last_gain ≠ (e.strips s).gain_control.get_value) :
    ∃ o1 ms1, send_gain_message e o = .ok o1 ms1 ∧ ms1 ≠ [] ∧ o1.gain_timeout = 8 ∧
      ∀ (es : List Engine) (e8 : Engine) (es' : List Engine), es.length = 7 →
        ∃ o7 ms7 o8 ms8 o9 ms9,
          seq (es.map tick) o1 = .ok o7 ms7 ∧ (∀ m ∈ ms7, m.path ≠ "/strip/name") ∧
          tick e8 o7 = .ok o8 ms8 ∧
          ms8.filter (fun m => m.path = "/strip/name") =
            [⟨"/strip/name", o.ssid, .text (e8.strips s).name, o.in_line⟩] ∧
          o8.gain_timeout = 0 ∧
          seq (es'.map tick) o8 = .ok o9 ms9 ∧ (∀ m ∈ ms9, m.path ≠ "/strip/name") := by
  refine ⟨_, _, send_gain_message_mode1 e o s h hm hg, by simp, rfl, ?_⟩
  intro es e8 es' hlen
  obtain ⟨o7, ms7, hr7, hs7, hi7, hf7, hid7, hil7, hgt7, hn7⟩ :=
    ticks_no_name es { o with _last_gain := (e.strips s).gain_control.get_value, gain_timeout := 8 }
      s h hi h1 (Or.inr (by simp [hlen]))
  obtain ⟨o8, ms8, hr8, hs8, hi8, hf8, hid8, hil8, hgt8, hn8⟩ := tick_step e8 o7 s hs7 hi7 hf7
  have hgt7' : o7.gain_timeout = 1 := by simp [hgt7, hlen]
  obtain ⟨o9, ms9, hr9, -, -, -, -, -, -, hn9⟩ :=
    ticks_no_name es' o8 s hs8 hi8 hf8 (Or.inl (by simp [hgt8, hgt7']))
  refine ⟨o7, ms7, o8, ms8, o9, ms9, hr7, hn7, hr8, ?_, by simp [hgt8, hgt7'], hr9, hn9⟩
  rw [hn8, if_pos hgt7', hid7, hil7]

/-- Claim C8 at a sample observer in gain mode 1. -/
theorem gain_name_countdown_witness :
    ∃ o1 ms1, send_gain_message (sample_engine sample_bus) (sample_observer 1 2) = .ok o1 ms1 ∧
      ms1 ≠ [] ∧ o1.gain_timeout = 8 ∧
      ∀ (es : List Engine) (e8 : Engine) (es' : List Engine), es.length = 7 →
        ∃ o7 ms7 o8 ms8 o9 ms9,
          seq (es.map tick) o1 = .ok o7 ms7 ∧ (∀ m ∈ ms7, m.path ≠ "/strip/name") ∧
          tick e8 o7 = .ok o8 ms8 ∧
          ms8.filter (fun m => m.path = "/strip/name") =
            [⟨"/strip/name", 1, .text (e8.strips 0).name, false⟩] ∧
          o8.gain_timeout = 0 ∧
          seq (es'.map tick) o8 = .ok o9 ms9 ∧ (∀ m ∈ ms9, m.path ≠ "/strip/name") :=
  gain_name_countdown (sample_engine sample_bus) (sample_observer 1 2) 0 rfl rfl rfl
    (by decide) (by decide)

/-- Claim C9: with a meter flag active, a tick on a sample below -120 does what
a tick on the sample -193 does (same messages, same resulting observer);
`_last_meter` becomes -193 and a `/strip/meter` message carries the value
computed from -193 (-193 itself in gain mode 0), never the raw sample. -/
theorem tick_below_floor (e : Engine) (o : OSCRouteObserver) (s : Nat) (m : ℚ)
    (h : o._strip = some s) (hi : o._init = false)
    (hf : (o.fb 7 || o.fb 8 || o.fb 9) = true) (hm : m < -120) :
    tick (e.with_meter s m) o = tick (e.with_meter s (-193)) o ∧
    ∃ o' ms, tick (e.with_meter s m) o = .ok o' ms ∧ o'._last_meter = -193 ∧
      ∀ msg ∈ ms, msg.path = "/strip/meter" →
        msg.payload =
          if o.fb 7 then (if o.gainmode ≠ 0 then .float (-99 / 100) else .float (-193))
          else .int (ledbits (-193)) := by
  have hn : now_meter ((e.with_meter s m).strips s) = -193 := by
    simp [Engine.with_meter, now_meter, hm]
  have hn' : now_meter ((e.with_meter s (-193)).strips s) = -193 := by
    simp [Engine.with_meter, now_meter]
  have hname : ((e.with_meter s m).strips s).name = ((e.with_meter s (-193)).strips s).name := by
    simp [Engine.with_meter]
  have hgain : ((e.with_meter s m).strips s).gain_control =
      ((e.with_meter s (-193)).strips s).gain_control := by
    simp [Engine.with_meter]
  refine ⟨?_, _, _, tick_bound _ o s h hi, by simp [hf, hn], ?_⟩
  · rw [tick_bound _ o s h hi, tick_bound _ o s h hi, hn, hn', hname, hgain]
  · intro msg hmsg hp
    rw [hn] at hmsg
    rcases List.mem_append.1 hmsg with hmsg | hmsg
    · split_ifs at hmsg with hc
      · have := meter_changed_payload (-193) o msg hmsg hp
        rw [this]
        norm_num
      · simp at hmsg
    · split_ifs at hmsg with hc
      · simp at hmsg
        rw [hmsg] at hp
        simp at hp
      · simp at hmsg

/-- Claim C9 at the sample -150. -/
theorem tick_below_floor_witness :
    tick ((sample_engine sample_bus).with_meter 0 (-150)) (sample_observer 0 128) =
      tick ((sample_engine sample_bus).with_meter 0 (-193)) (sample_observer 0 128) ∧
    ∃ o' ms,
      tick ((sample_engine sample_bus).with_meter 0 (-150)) (sample_observer 0 128) =
          .ok o' ms ∧
        o'._last_meter = -193 ∧
        ∀ msg ∈ ms, msg.path = "/strip/meter" →
          msg.payload =
            if (sample_observer 0 128).fb 7 then
              (if (sample_observer 0 128).gainmode ≠ 0 then .float (-99 / 100)
               else .float (-193))
            else .int (ledbits (-193)) :=
  tick_below_floor (sample_engine sample_bus) (sample_observer 0 128) 0 (-150) rfl rfl
    (by decide) (by decide)

/-- Claim C10 fails as stated: with signal feedback active and the sample equal to
`_last_meter`, a tick sends no `/strip/signal` message. -/
theorem tick_signal_not_sent_when_meter_unchanged :
    (sample_observer 0 512)._strip = some 0 ∧ (sample_observer 0 512)._init = false ∧
    (sample_observer 0 512).fb 9 = true ∧
    (tick (sample_engine sample_bus) (sample_observer 0 512)).sent = [] := by
  have h7 : Nat.testBit 512 7 = false := by decide
  have h8 : Nat.testBit 512 8 = false := by decide
  have h9 : Nat.testBit 512 9 = true := by decide
  have h1 : Nat.testBit 512 1 = false := by decide
  refine ⟨rfl, rfl, by decide, ?_⟩
  rw [tick_bound _ _ 0 rfl rfl]
  norm_num [sample_observer, sample_engine, sample_bus, sample_control, fb, h7, h8, h9, h1, now_meter]

/-- Claim C10 as amended: on a bound observer past its initial sync with signal
feedback active, a tick sends a `/strip/signal` message exactly when the clamped
sample differs from `_last_meter`; there is then one such message, with value 0
when the sampled meter value is below -40 and 1 otherwise. -/
theorem tick_signal (e : Engine) (o : OSCRouteObserver) (s : Nat)
    (h : o._strip = some s) (hi : o._init = false) (h9 : o.fb 9 = true) :
    (tick e o).sent.filter (fun m => m.path = "/strip/signal") =
      if o._last_meter ≠ now_meter (e.strips s) then
        [⟨"/strip/signal", o.ssid,
          .float (if (e.strips s).peak_meter.getD (-193) < -40 then 0 else 1), o.in_line⟩]
      else [] := by
  rw [tick_bound e o s h hi]
  simp only [Outcome.sent_ok, List.filter_append, h9, Bool.or_true, true_and]
  have hname : (if o.fb 1 = true ∧ o.gain_timeout = 1 then
      [(⟨"/strip/name", o.ssid, .text (e.strips s).name, o.in_line⟩ : Msg)] else []).filter
      (fun m => m.path = "/strip/signal") = [] := by
    split_ifs <;> simp
  rw [hname, List.append_nil]
  by_cases hc : o._last_meter = now_meter (e.strips s)
  · simp [hc]
  · rw [if_pos hc, if_pos hc, meter_changed_signal, if_pos h9]
    simp only [now_meter_signal]

/-- The amended claim C10 at a sample observer whose meter cache differs from the
sample. -/
theorem tick_signal_witness :
    (tick (sample_engine sample_bus) { sample_observer 0 512 with _last_meter := -20 }).sent.filter
        (fun m => m.path = "/strip/signal") =
      [⟨"/strip/signal", 1, .float 1, false⟩] := by
  have h := tick_signal (sample_engine sample_bus) { sample_observer 0 512 with _last_meter := -20 }
    0 rfl rfl (by decide)
  rw [h]
  norm_num [sample_observer, sample_engine, sample_bus, sample_control, now_meter]

/-- Claim C11 fails as stated: on slot 2 the placeholder is the count itself, "1"
for `set_link_ready 1` and "2" for `set_link_ready 2`; and on slot 6 the call
still sends the burst of `clear_strip`, here `/strip/expand 0`. -/
theorem link_placeholder_of_slot2_shows_count :
    (set_link_ready (sample_engine sample_bus) 1 { sample_observer 0 0 with ssid := 2 }).sent =
      [⟨"/strip/expand", 2, .float 0, false⟩, ⟨"/strip/name", 2, .text "1", false⟩] ∧
    (set_link_ready (sample_engine sample_bus) 2 { sample_observer 0 0 with ssid := 2 }).sent =
      [⟨"/strip/expand", 2, .float 0, false⟩, ⟨"/strip/name", 2, .text "2", false⟩] ∧
    (set_link_ready (sample_engine sample_bus) 1 { sample_observer 0 0 with ssid := 6 }).sent =
      [⟨"/strip/expand", 6, .float 0, false⟩] := by
  have h0 : Nat.testBit 0 0 = false := by decide
  have h1 : Nat.testBit 0 1 = false := by decide
  have h7 : Nat.testBit 0 7 = false := by decide
  have h8 : Nat.testBit 0 8 = false := by decide
  have h9 : Nat.testBit 0 9 = false := by decide
  refine ⟨?_, ?_, ?_⟩ <;>
    simp [set_link_ready, clear_strip, sample_observer, fb, h0, h1, h7, h8, h9] <;> decide

/-- Claim C11 as amended: for every count k > 0, `set_link_ready k` clears the slot
(the burst of `clear_strip`) and then sends one `/strip/name` placeholder on the
slots 1 to 5, nothing more on the other slots: the fixed words Device, Missing,
from, Linkset on the slots 1, 3, 4, 5 and the decimal text of k on slot 2. On
every slot but 2 the outcome is the same for every positive count. -/
theorem set_link_ready_placeholder (e : Engine) (o : OSCRouteObserver) (k : Nat) (hk : 0 < k) :
    set_link_ready e k o =
      .ok { o with _init := true, strip_connections := [] }
        ((clear_strip o).sent ++
          (if o.ssid = 1 then [o.text_msg "/strip/name" "Device"]
           else if o.ssid = 2 then [o.text_msg "/strip/name" (toString k)]
           else if o.ssid = 3 then [o.text_msg "/strip/name" "Missing"]
           else if o.ssid = 4 then [o.text_msg "/strip/name" "from"]
           else if o.ssid = 5 then [o.text_msg "/strip/name" "Linkset"]
           else [])) ∧
    ∀ k', 0 < k' → o.ssid ≠ 2 → set_link_ready e k' o = set_link_ready e k o := by
  have hk0 : k ≠ 0 := by omega
  refine ⟨set_link_ready_wait e o k hk0, ?_⟩
  intro k' hk' h2
  have hk0' : k' ≠ 0 := by omega
  rw [set_link_ready_wait e o k hk0, set_link_ready_wait e o k' hk0']
  simp [h2]

/-- The amended claim C11 on slot 1 with the count 3. -/
theorem set_link_ready_placeholder_witness :
    set_link_ready (sample_engine sample_bus) 3 (sample_observer 0 0) =
      .ok { sample_observer 0 0 with _init := true, strip_connections := [] }
        ((clear_strip (sample_observer 0 0)).sent ++
          [(sample_observer 0 0).text_msg "/strip/name" "Device"]) :=
  (set_link_ready_placeholder (sample_engine sample_bus) (sample_observer 0 0) 3
    (by decide)).1

/-- Claim C12: on a bound observer `gain_automation` first runs
`send_gain_message`, then stores the automation mode of the strip's gain control
in `as` and sends two more messages: the code of the mode (Off 0, Play 1,
Write 2, Touch 3, Latch 4) as a float on `<path>/automation`, then its label
(Manual, Play, Write, Touch, Latch) as a text on `<path>/automation_name`, where
`<path>` is `/strip/fader` in a gain mode other than 0 and `/strip/gain` in gain
mode 0. -/
theorem gain_automation_sends_mode (e : Engine) (o : OSCRouteObserver) (s : Nat)
    (h : o._strip = some s) :
    ∃ o1 ms, send_gain_message e o = .ok o1 ms ∧
      gain_automation e o =
        .ok { o1 with as := (e.strips s).gain_control.automation_state }
          (ms ++
            [o.float_msg (if o.gainmode ≠ 0 then "/strip/fader/automation"
                          else "/strip/gain/automation")
               (match (e.strips s).gain_control.automation_state with
                | .Off => 0 | .Play => 1 | .Write => 2 | .Touch => 3 | .Latch => 4),
             o.text_msg (if o.gainmode ≠ 0 then "/strip/fader/automation_name"
                         else "/strip/gain/automation_name")
               (match (e.strips s).gain_control.automation_state with
                | .Off => "Manual" | .Play => "Play" | .Write => "Write" | .Touch => "Touch"
                | .Latch => "Latch")]) := by
  obtain ⟨o1, ms, h1, hs1, hid, hil, hgm, -⟩ := send_gain_message_ok e o s h
  refine ⟨o1, ms, h1, ?_⟩
  have ha : "/strip/fader" ++ "/automation" = "/strip/fader/automation" := by decide
  have hb : "/strip/gain" ++ "/automation" = "/strip/gain/automation" := by decide
  have hc : "/strip/fader" ++ "/automation_name" = "/strip/fader/automation_name" := by decide
  have hd : "/strip/gain" ++ "/automation_name" = "/strip/gain/automation_name" := by decide
  simp only [gain_automation, seq_cons, seq_nil, h1, Outcome.andThen_ok, hs1]
  by_cases hg : o.gainmode = 0 <;>
    cases hm : (e.strips s).gain_control.automation_state <;>
    simp [hg, hm, automation_code, hid, hil, ha, hb, hc, hd]

/-- Claim C12 at a sample observer in gain mode 1 on a strip under automation
playback. -/
theorem gain_automation_sends_mode_witness :
    ∃ o1 ms, send_gain_message (sample_engine sample_bus) (sample_observer 1 2) = .ok o1 ms ∧
      gain_automation (sample_engine sample_bus) (sample_observer 1 2) =
        .ok { o1 with as := AutoState.Play }
          (ms ++
            [⟨"/strip/fader/automation", 1, .float 1, false⟩,
             ⟨"/strip/fader/automation_name", 1, .text "Play", false⟩]) := by
  obtain ⟨o1, ms, h1, h2⟩ :=
    gain_automation_sends_mode (sample_engine sample_bus) (sample_observer 1 2) 0 rfl
  refine ⟨o1, ms, h1, ?_⟩
  rw [h2]
  simp [sample_observer, sample_engine, sample_bus, sample_control]

/-- Claim C13: `set_expand selector` stores the selector and changes nothing else;
it sends one `/strip/expand` message, 1 when the selector is the slot id and 0
otherwise, when the selector differs from the stored one, and nothing when it is
equal; so running it a second time with the same selector adds nothing. -/
theorem set_expand_once (o : OSCRouteObserver) (selector : Nat) :
    set_expand selector o =
      .ok { o with _expand := selector }
        (if selector ≠ o._expand then
          [o.float_msg "/strip/expand" (if selector = o.ssid then 1 else 0)]
         else []) ∧
    (set_expand selector o).andThen (set_expand selector) = set_expand selector o := by
  refine ⟨set_expand_eq o selector, ?_⟩
  rw [set_expand_eq o selector]
  simp only [Outcome.andThen_ok]
  rw [set_expand_eq]
  simp

/-- Claim C14: on a bound observer whose gain cache differs from the strip's gain,
`send_gain_message` leaves the cache at the current gain and sends, in this
order, in gain mode 0 one `/strip/gain` message in decibels (the sentinel -200
below 1e-15); in gain mode 1 one `/strip/fader` message with the interface
position and one `/strip/name` text with the gain in decibels, setting the
countdown to 8; in gain mode 2 one `/strip/fader` message and one `/strip/gain`
message. -/
theorem send_gain_message_by_mode (e : Engine) (o : OSCRouteObserver) (s : Nat)
    (h : o._strip = some s) (hg : o._last_gain ≠ (e.strips s).gain_control.get_value) :
    (∃ o1 ms, send_gain_message e o = .ok o1 ms ∧
      o1._last_gain = (e.strips s).gain_control.get_value) ∧
    (o.gainmode = 0 →
      send_gain_message e o =
        .ok { o with _last_gain := (e.strips s).gain_control.get_value }
          [o.float_msg "/strip/gain"
            (if (e.strips s).gain_control.get_value < 1 / 10 ^ 15 then -200
             else e.accurate_coefficient_to_dB (e.strips s).gain_control.get_value)]) ∧
    (o.gainmode = 1 →
      send_gain_message e o =
        .ok { o with _last_gain := (e.strips s).gain_control.get_value, gain_timeout := 8 }
          [o.float_msg "/strip/fader"
            ((e.strips s).gain_control.internal_to_interface
              (e.strips s).gain_control.get_value),
           o.text_msg "/strip/name"
            (e.compose_fixed2
              (e.accurate_coefficient_to_dB (e.strips s).gain_control.get_value))]) ∧
    (o.gainmode = 2 →
      send_gain_message e o =
        .ok { o with _last_gain := (e.strips s).gain_control.get_value }
          [o.float_msg "/strip/fader"
            ((e.strips s).gain_control.internal_to_interface
              (e.strips s).gain_control.get_value),
           o.float_msg "/strip/gain"
            (if (e.strips s).gain_control.get_value < 1 / 10 ^ 15 then -200
             else e.accurate_coefficient_to_dB (e.strips s).gain_control.get_value)]) := by
  have hc := send_gain_message_changed e o s h hg
  refine ⟨⟨_, _, hc, rfl⟩, ?_, ?_, ?_⟩
  · intro hm; rw [hc]; simp [hm]
  · intro hm; rw [hc]; simp [hm]
  · intro hm; rw [hc]; simp [hm]

/-- Claim C14 at sample observers in the gain modes 0, 1 and 2. -/
theorem send_gain_message_by_mode_witness :
    send_gain_message (sample_engine sample_bus) (sample_observer 0 2) =
      .ok { sample_observer 0 2 with _last_gain := 1 } [⟨"/strip/gain", 1, .float 1, false⟩] ∧
    send_gain_message (sample_engine sample_bus) (sample_observer 1 2) =
      .ok { sample_observer 1 2 with _last_gain := 1, gain_timeout := 8 }
        [⟨"/strip/fader", 1, .float 1, false⟩, ⟨"/strip/name", 1, .text "dB", false⟩] ∧
    send_gain_message (sample_engine sample_bus) (sample_observer 2 2) =
      .ok { sample_observer 2 2 with _last_gain := 1 }
        [⟨"/strip/fader", 1, .float 1, false⟩, ⟨"/strip/gain", 1, .float 1, false⟩] := by
  have hg : ∀ g, (sample_observer g 2)._last_gain ≠
      ((sample_engine sample_bus).strips 0).gain_control.get_value := by
    intro g
    norm_num [sample_observer, sample_engine, sample_bus, sample_control]
  refine ⟨?_, ?_, ?_⟩
  · rw [(send_gain_message_by_mode (sample_engine sample_bus) (sample_observer 0 2) 0 rfl
      (hg 0)).2.1 rfl]
    norm_num [sample_observer, sample_engine, sample_bus, sample_control]
  · rw [(send_gain_message_by_mode (sample_engine sample_bus) (sample_observer 1 2) 0 rfl
      (hg 1)).2.2.1 rfl]
    norm_num [sample_observer, sample_engine, sample_bus, sample_control]
  · rw [(send_gain_message_by_mode (sample_engine sample_bus) (sample_observer 2 2) 0 rfl
      (hg 2)).2.2.2 rfl]
    norm_num [sample_observer, sample_engine, sample_bus, sample_control]

/-- Claim C15 fails as stated: in gain mode 1 on a strip whose gain is 0, the
`/strip/name` text is rendered from the decibel conversion of that gain: with a
conversion that yields -1 the text is "-", with one that yields 1 it is "+". -/
theorem name_text_renders_conversion_of_silence :
    sample_silent.gain_control.get_value < 1 / 10 ^ 15 ∧
    (send_gain_message (probe_engine sample_silent (fun _ => -1))
        { sample_observer 1 2 with _last_gain := 1 }).sent =
      [⟨"/strip/fader", 1, .float 0, false⟩, ⟨"/strip/name", 1, .text "-", false⟩] ∧
    (send_gain_message (probe_engine sample_silent (fun _ => 1))
        { sample_observer 1 2 with _last_gain := 1 }).sent =
      [⟨"/strip/fader", 1, .float 0, false⟩, ⟨"/strip/name", 1, .text "+", false⟩] := by
  refine ⟨by norm_num [sample_silent, sample_control], ?_, ?_⟩ <;>
    norm_num [send_gain_message, probe_engine, sample_silent, sample_observer, sample_bus,
      sample_control]

/-- Claim C15 as amended: on a bound observer and a strip whose gain is below 1e-15,
in the gain modes 0 and 2 `send_gain_message` does not use the decibel conversion
(two engines that differ in the conversion and the rendering only give the same
outcome) and a `/strip/gain` message carries the sentinel -200; in gain mode 1
the `/strip/name` text is the rendering of the decibel conversion of the gain. -/
theorem gain_sentinel_by_mode (e e' : Engine) (o : OSCRouteObserver) (s : Nat)
    (h : o._strip = some s) (he : e'.strips = e.strips)
    (hz : (e.strips s).gain_control.get_value < 1 / 10 ^ 15) :
    (o.gainmode = 0 ∨ o.gainmode = 2 →
      send_gain_message e' o = send_gain_message e o ∧
      ∀ m ∈ (send_gain_message e o).sent, m.path = "/strip/gain" → m.payload = .float (-200)) ∧
    (o.gainmode = 1 → o._last_gain ≠ (e.strips s).gain_control.get_value →
      (send_gain_message e o).sent =
        [o.float_msg "/strip/fader"
          ((e.strips s).gain_control.internal_to_interface
            (e.strips s).gain_control.get_value),
         o.text_msg "/strip/name"
          (e.compose_fixed2
            (e.accurate_coefficient_to_dB (e.strips s).gain_control.get_value))]) := by
  have hz2 : (e.strips s).gain_control.get_value < (10 ^ 15)⁻¹ := by simpa using hz
  constructor
  · intro hm
    by_cases hg : o._last_gain = (e.strips s).gain_control.get_value
    · have hg' : o._last_gain = (e'.strips s).gain_control.get_value := by rw [he]; exact hg
      rw [send_gain_message_cached e o s h hg, send_gain_message_cached e' o s h hg']
      simp
    · have hg' : o._last_gain ≠ (e'.strips s).gain_control.get_value := by rw [he]; exact hg
      rw [send_gain_message_changed e o s h hg, send_gain_message_changed e' o s h hg']
      rcases hm with hm | hm <;> simp [hm, he, hz2]
  · intro hm hg
    rw [send_gain_message_changed e o s h hg]
    simp [hm]

/-- The amended claim C15 in gain mode 2 on a strip whose gain is 0. -/
theorem gain_sentinel_by_mode_witness :
    (send_gain_message (probe_engine sample_silent (fun _ => 1))
          { sample_observer 2 2 with _last_gain := 1 } =
        send_gain_message (probe_engine sample_silent (fun _ => -1))
          { sample_observer 2 2 with _last_gain := 1 } ∧
      ∀ m ∈ (send_gain_message (probe_engine sample_silent (fun _ => -1))
          { sample_observer 2 2 with _last_gain := 1 }).sent,
        m.path = "/strip/gain" → m.payload = .float (-200)) :=
  (gain_sentinel_by_mode (probe_engine sample_silent (fun _ => -1))
    (probe_engine sample_silent (fun _ => 1)) { sample_observer 2 2 with _last_gain := 1 } 0 rfl rfl
    (by norm_num [probe_engine, sample_silent, sample_control])).1 (Or.inr rfl)

/-- Claim C16, evaluated where the code departs from it: an observer with meter
feedback is constructed on slot 1 of a surface without strips, then receives
`refresh_strip (empty, false)`. The short-circuit of line 113 finds the two empty
strips equal and sets `_init` to false: the observer is not initialising and has
no strip. The next `tick` passes the guard of line 283 and reads the peak meter
of the empty strip at line 290. -/
theorem tick_reads_empty_strip_after_unforced_refresh :
    ((construct (sample_engine sample_bus) 1 sample_surface (sample_observer 0 0)).andThen
        (refresh_strip (sample_engine sample_bus) none false)).state =
      some { initial 1 sample_surface (sample_observer 0 0) with _init := false, _expand := 0 } ∧
    ((construct (sample_engine sample_bus) 1 sample_surface (sample_observer 0 0)).andThen
        (refresh_strip (sample_engine sample_bus) none false)).andThen
        (tick (sample_engine sample_bus)) =
      .fault [⟨"/strip/expand", 1, .float 0, false⟩, ⟨"/strip/meter", 1, .float (-193), false⟩,
              ⟨"/strip/expand", 1, .float 0, false⟩] := by
  have h0 : Nat.testBit 128 0 = false := by decide
  have h1 : Nat.testBit 128 1 = false := by decide
  have h2 : Nat.testBit 128 2 = false := by decide
  have h7 : Nat.testBit 128 7 = true := by decide
  have h9 : Nat.testBit 128 9 = false := by decide
  constructor <;>
    norm_num [construct, initial, sample_surface, clear_strip, set_expand, refresh_strip,
      send_select_status, tick, tick_meter, fb, h0, h1, h2, h7, h9, sample_observer]

/-- Claim C17 fails as stated: after construction on a strip and
`set_link_ready 1` the observer is in link-wait, without connections, and its
gain cache still holds the gain 1 that the initial sync sent, not the sentinel
-1. -/
theorem link_wait_keeps_gain_cache :
    ∃ o, Reachable o ∧
      ((construct (sample_engine sample_bus) 1 sample_surface_one (sample_observer 0 0)).andThen
        (set_link_ready (sample_engine sample_bus) 1)).state = some o ∧
      o._init = true ∧ o.strip_connections = [] ∧ o._last_gain = 1 := by
  have h0 : Nat.testBit 2 0 = false := by decide
  have h1 : Nat.testBit 2 1 = true := by decide
  have h2 : Nat.testBit 2 2 = false := by decide
  have h7 : Nat.testBit 2 7 = false := by decide
  have h8 : Nat.testBit 2 8 = false := by decide
  have h9 : Nat.testBit 2 9 = false := by decide
  have hc : (construct (sample_engine sample_bus) 1 sample_surface_one (sample_observer 0 0)).state =
      some { initial 1 sample_surface_one (sample_observer 0 0) with
              _strip := some 0, _init := false, _expand := 0, _last_gain := 1, _last_trim := 2,
              as := AutoState.Play, _tick_busy := false,
              strip_connections :=
                [⟨0, Handler.no_strip⟩, ⟨0, Handler.gain_automation⟩,
                 ⟨0, Handler.send_gain_message⟩, ⟨0, Handler.send_trim_message⟩] } := by
    norm_num [construct, initial, sample_surface_one, set_expand, refresh_strip, refresh_levels,
      send_select_status, gain_automation, send_gain_message, send_trim_message, tick, tick_meter,
      tick_level, fb, h0, h1, h2, h7, h8, h9, sample_observer, sample_engine, sample_bus,
      sample_control, automation_code]
  have hr := Reachable.construct _ _ _ _ _ _ (Outcome.eq_ok_of_state hc)
  have hk : (1 : Nat) ≠ 0 := by decide
  refine ⟨_, Reachable.call (Call.set_link_ready (sample_engine sample_bus) 1) _ _ _ hr
    (set_link_ready_wait _ _ 1 hk), ?_, rfl, rfl, rfl⟩
  rw [Outcome.eq_ok_of_state hc]
  simp only [Outcome.andThen_ok]
  rw [set_link_ready_wait _ _ 1 hk]
  rfl

/-- Claim C17 as amended: in every state that construction and completed calls of
`refresh_strip`, `clear_strip`, `set_link_ready`, `set_expand`, `no_strip` and
`tick` can reach, an observer that has no strip or is initialising (as it is
after `clear_strip` and in link-wait) holds no connection. -/
theorem idle_has_no_connections (o : OSCRouteObserver) (h : Reachable o)
    (hidle : o._strip = none ∨ o._init = true) : o.strip_connections = [] := by
  have key : ∀ o, Reachable o →
      (o._strip = none ∨ o._init = true) → o.strip_connections = [] := by
    intro o h
    induction h with
    | construct e ss sur junk o sent hc =>
      have := construct_inv e ss sur junk
      rw [hc] at this
      exact this
    | call c o o' sent _ hr ih =>
      have := call_inv c o ih
      rw [hr] at this
      exact this
  exact key o h hidle

/-- The amended claim C17 at the observer constructed on slot 1 of a surface
without strips. -/
theorem idle_has_no_connections_witness :
    Reachable { initial 1 sample_surface (sample_observer 0 0) with _expand := 0 } ∧
    ({ initial 1 sample_surface (sample_observer 0 0) with _expand := 0 } :
      OSCRouteObserver).strip_connections = [] := by
  have h0 : Nat.testBit 128 0 = false := by decide
  have h1 : Nat.testBit 128 1 = false := by decide
  have h2 : Nat.testBit 128 2 = false := by decide
  have h7 : Nat.testBit 128 7 = true := by decide
  have h9 : Nat.testBit 128 9 = false := by decide
  have hc : (construct (sample_engine sample_bus) 1 sample_surface (sample_observer 0 0)).state =
      some { initial 1 sample_surface (sample_observer 0 0) with _expand := 0 } := by
    norm_num [construct, initial, sample_surface, clear_strip, set_expand, fb, h0, h1, h2, h7, h9,
      sample_observer]
  have hr := Reachable.construct _ _ _ _ _ _ (Outcome.eq_ok_of_state hc)
  exact ⟨hr, idle_has_no_connections _ hr (Or.inl rfl)⟩

/-- Claim C18 fails as stated: after `set_expand 1` on slot 1 and `clear_strip`,
the last `/strip/expand` message carries 0 while the stored selector is the slot
id. -/
theorem clear_strip_resets_expand_display :
    (set_expand 1 (sample_observer 0 0)).andThen clear_strip =
      .ok { sample_observer 0 0 with _expand := 1, _init := true, strip_connections := [] }
        [⟨"/strip/expand", 1, .float 1, false⟩, ⟨"/strip/expand", 1, .float 0, false⟩] ∧
    (sample_observer 0 0).ssid = 1 := by
  have h0 : Nat.testBit 0 0 = false := by decide
  have h1 : Nat.testBit 0 1 = false := by decide
  have h7 : Nat.testBit 0 7 = false := by decide
  have h8 : Nat.testBit 0 8 = false := by decide
  have h9 : Nat.testBit 0 9 = false := by decide
  refine ⟨?_, rfl⟩
  simp [set_expand, clear_strip, sample_observer, fb, h0, h1, h7, h8, h9]

/-- Claim C18 as amended: when `set_expand x` changes the selector (and so sends a
`/strip/expand` message) and the calls that follow, of any kind, complete
without sending another `/strip/expand` message, the value of that message is 1
if and only if the stored selector equals the slot id in the state reached. -/
theorem expand_value_tracks_selector (o : OSCRouteObserver) (x : Nat) (cs : List Call)
    (o' : OSCRouteObserver) (ms : List Msg) (hx : x ≠ o._expand)
    (hrun : (set_expand x o).andThen (run_calls cs) = .ok o' ms)
    (hlast : ∀ m ∈ ms.tail, m.path ≠ "/strip/expand") :
    ∃ v, ms.head? = some (o.float_msg "/strip/expand" v) ∧ (v = 1 ↔ o'._expand = o'.ssid) := by
  rw [set_expand_eq, if_pos hx] at hrun
  obtain ⟨o1, m1, m2, h1, h2, hm⟩ := Outcome.andThen_eq_ok hrun
  simp only [Outcome.ok.injEq] at h1
  obtain ⟨h1a, h1b⟩ := h1
  subst hm
  rw [← h1b] at hlast ⊢
  simp only [List.singleton_append, List.tail_cons] at hlast
  have hf := run_calls_expand_frame cs o1 o' m2 h2 hlast
  refine ⟨_, rfl, ?_⟩
  rw [hf.1, hf.2, ← h1a]
  show (if x = o.ssid then (1 : ℚ) else 0) = 1 ↔ x = o.ssid
  split_ifs with hc
  · simp [hc]
  · simp [hc]

/-- The amended claim C18 at `set_expand 1` on slot 1 followed by `no_strip`. -/
theorem expand_value_tracks_selector_witness :
    ∃ v, ([⟨"/strip/expand", 1, .float 1, false⟩] : List Msg).head? =
        some ((sample_observer 0 0).float_msg "/strip/expand" v) ∧
      (v = 1 ↔ sample_expanded._expand = sample_expanded.ssid) :=
  expand_value_tracks_selector (sample_observer 0 0) 1 [Call.no_strip] sample_expanded
    [⟨"/strip/expand", 1, .float 1, false⟩] (by decide)
    (by simp [set_expand, run_calls, Call.run, no_strip, sample_observer, sample_expanded])
    (by simp)

/-- Claim C19: for every monitoring control, `send_monitor_status` leaves the
observer as it is and sends two integers, `/strip/monitor_input` then
`/strip/monitor_disk`: when the integer part of the value is 0, 1, 2 or 3 the
input flag is its bit 0 and the disk flag its bit 1; otherwise both are 0. -/
theorem monitor_flags (c : Controllable) (o : OSCRouteObserver) :
    send_monitor_status (some c) o =
      .ok o
        [⟨"/strip/monitor_input", o.ssid,
            .int (if 0 ≤ truncate c.get_value ∧ truncate c.get_value ≤ 3 then
                    truncate c.get_value % 2 else 0), o.in_line⟩,
         ⟨"/strip/monitor_disk", o.ssid,
            .int (if 0 ≤ truncate c.get_value ∧ truncate c.get_value ≤ 3 then
                    truncate c.get_value / 2 % 2 else 0), o.in_line⟩] := by
  rw [send_monitor_status_some]
  simp only [monitor_msgs]
  generalize truncate c.get_value = t
  by_cases h1 : t = 1
  · subst h1; simp
  · by_cases h2 : t = 2
    · subst h2; simp
    · by_cases h3 : t = 3
      · subst h3; simp
      · have h0 : (0 ≤ t ∧ t ≤ 3) → t = 0 := by omega
        simp only [h1, h2, h3, or_self, if_false]
        by_cases hr : 0 ≤ t ∧ t ≤ 3
        · rw [h0 hr]; simp
        · simp [hr]

/-- Claim C20: in bit-mask meter mode (`feedback[8]` active, `feedback[7]` not) on
a bound observer past its initial sync, for a sample m >= -50.25 whose LED level
L = trunc((m + 54) / 3.75 - 1) is below 32, every `/strip/meter` message of the
tick carries the mask `ledbits m` (and there is one when the sample differs from
the cache); the low 12 bits of the mask are 2^min(L, 12) - 1; hence each of the
first 12 LEDs lit for m is lit for every higher sample in that range. -/
theorem led_mask_of_sample (e : Engine) (o : OSCRouteObserver) (s : Nat) (m : ℚ)
    (h : o._strip = some s) (hi : o._init = false)
    (h8 : o.fb 8 = true) (h7 : o.fb 7 = false)
    (hpm : (e.strips s).peak_meter = some m) (hm : -201 / 4 ≤ m)
    (hL : truncate ((m + 54) / (15 / 4) - 1) < 32) :
    (∀ msg ∈ (tick e o).sent, msg.path = "/strip/meter" → msg.payload = .int (ledbits m)) ∧
    (o._last_meter ≠ m → ∃ msg ∈ (tick e o).sent, msg.path = "/strip/meter") ∧
    ledbits m % 2 ^ 12 = 2 ^ (min (truncate ((m + 54) / (15 / 4) - 1)).toNat 12) - 1 ∧
    ∀ m2, m ≤ m2 → truncate ((m2 + 54) / (15 / 4) - 1) < 32 →
      ∀ i < 12, (ledbits m).testBit i = true → (ledbits m2).testBit i = true := by
  have hn : now_meter (e.strips s) = m := by
    have : ¬ m < -120 := by linarith
    simp [now_meter, hpm, this]
  have hf : (o.fb 7 || o.fb 8 || o.fb 9) = true := by simp [h8]
  refine ⟨?_, ?_, led_mask m hm hL, fun m2 h12 hL2 i hi' hb =>
    led_mask_mono m m2 hm h12 hL2 i hi' hb⟩
  · intro msg hmsg hp
    rw [tick_bound e o s h hi, hn] at hmsg
    rcases List.mem_append.1 hmsg with hmsg | hmsg
    · split_ifs at hmsg with hc
      · have := meter_changed_payload m o msg hmsg hp
        rw [this]
        simp [h7]
      · simp at hmsg
    · split_ifs at hmsg with hc
      · simp at hmsg
        rw [hmsg] at hp
        simp at hp
      · simp at hmsg
  · intro hne
    rw [tick_bound e o s h hi, hn]
    have hc : (o.fb 7 || o.fb 8 || o.fb 9) = true ∧ o._last_meter ≠ m := ⟨hf, hne⟩
    simp only [if_pos hc, meter_changed_bitmask m o h8 h7]
    exact ⟨_, List.mem_append_left _ (List.mem_cons_self _ _), rfl⟩

/-- Claim C20 at the sample -10, whose LED level is 10. -/
theorem led_mask_of_sample_witness :
    ledbits (-10) % 2 ^ 12 = 2 ^ (min (truncate ((-10 + 54) / (15 / 4) - 1)).toNat 12) - 1 :=
  (led_mask_of_sample (sample_engine sample_bus) (sample_observer 0 256) 0 (-10) rfl rfl
    (by decide) (by decide) rfl (by norm_num) (by
      have hq : ((-10 : ℚ) + 54) / (15 / 4) - 1 = 161 / 15 := by norm_num
      have hnum : ((161 : ℚ) / 15).num = 161 := by norm_num
      have hden : ((161 : ℚ) / 15).den = 15 := by norm_num
      rw [hq, truncate, hnum, hden]
      decide)).2.2.1

end OSCRouteObserver

end ArdourSurface
